import Mathlib

/-!
# Bricklet glue of the bricker library

A shallow embedding of the six bricklet files
(`analogin/averaging.go`, `analogout/voltage.go`, `dualrelay/state.go`,
`dualbutton/ledstate.go`, `io4/interrupt.go`, `lcd20x4/button.go`).

Conventions of the embedding.

* A Go pointer `*T` is an `Option T`; `none` is the nil pointer.
* A method with a pointer receiver returns the receiver as it is after the
  call, paired with the result of the method when it has one.
* `uint8` and `uint16` fields are natural numbers; the only operations the
  files apply to them are copies, comparisons and a bitwise and, none of which
  can overflow.
* A nil pointer dereference is a `Panic`.
-/

namespace Bricker

/-- The Go `error` interface: `none` is the nil error, `some msg` an error value. -/
abbrev error := Option String

/-- Run-time panics the bricklet files can raise. -/
inductive Panic where
  | nilDereference
  deriving DecidableEq, Repr

/-! ## Payload types -/

namespace analogin

/-- Go `type Average struct { Value uint8 }`. -/
structure Average where
  Value : Nat
  deriving DecidableEq, Repr

end analogin

namespace analogout

/-- Go `type Voltage struct { Value uint16 }`, in mV. -/
structure Voltage where
  Value : Nat
  deriving DecidableEq, Repr

end analogout

namespace dualrelay

/-- Go `type State struct { Relay1 bool; Relay2 bool }`. -/
structure State where
  Relay1 : Bool
  Relay2 : Bool
  deriving DecidableEq, Repr

/-- Go `type StateRaw struct { Relay1 uint8; Relay2 uint8 }`. -/
structure StateRaw where
  Relay1 : Nat
  Relay2 : Nat
  deriving DecidableEq, Repr

/-- Go `type SelectedState struct { Relay uint8; State bool }`. -/
structure SelectedState where
  Relay : Nat
  State : Bool
  deriving DecidableEq, Repr

/-- Go `type SelectedStateRaw struct { Relay uint8; State uint8 }`. -/
structure SelectedStateRaw where
  Relay : Nat
  State : Nat
  deriving DecidableEq, Repr

end dualrelay

namespace dualbutton

/-- Go `type LedState struct { LedLeft uint8; LedRight uint8 }`. -/
structure LedState where
  LedLeft : Nat
  LedRight : Nat
  deriving DecidableEq, Repr

/-- Go `type SelectedLedState struct { Led uint8; State uint8 }`. -/
structure SelectedLedState where
  Led : Nat
  State : Nat
  deriving DecidableEq, Repr

/-- Go `type States struct { ButtonLeft, ButtonRight, LedLeft, LedRight uint8 }`. -/
structure States where
  ButtonLeft : Nat
  ButtonRight : Nat
  LedLeft : Nat
  LedRight : Nat
  deriving DecidableEq, Repr

end dualbutton

namespace io4

/-- Go `type Interrupt struct { Mask uint8 }`. -/
structure Interrupt where
  Mask : Nat
  deriving DecidableEq, Repr

/-- Go `type Interrupts struct { InterruptMask uint8; ValueMask uint8 }`. -/
structure Interrupts where
  InterruptMask : Nat
  ValueMask : Nat
  deriving DecidableEq, Repr

end io4

namespace lcd20x4

/-- Go `type Button struct { Number uint8 }`. -/
structure Button where
  Number : Nat
  deriving DecidableEq, Repr

/-- Go `type Pressed struct { IsPressed bool }`. -/
structure Pressed where
  IsPressed : Bool
  deriving DecidableEq, Repr

/-- Go `type PressedRaw struct { IsPressed uint8 }`. -/
structure PressedRaw where
  IsPressed : Nat
  deriving DecidableEq, Repr

end lcd20x4

/-! ## Interface values -/

namespace device

/-- Modelled from the spec: `device.EmptyResult` is declared outside the six
files. It is the result of a call that is only acknowledged, whose response
payload is empty, so it has no fields. -/
structure EmptyResult where
  deriving DecidableEq, Repr

/-- A value of the Go interface `device.Resulter` (the interface is declared
outside the six files): the nil interface, or a pointer (possibly a nil
pointer) tagged with its dynamic type. The tags are the result types the six
files use; `foreign` stands for a value of any Resulter type declared
elsewhere. -/
inductive Resulter where
  | nil
  | Average (p : Option analogin.Average)
  | Voltage (p : Option analogout.Voltage)
  | State (p : Option dualrelay.State)
  | SelectedState (p : Option dualrelay.SelectedState)
  | LedState (p : Option dualbutton.LedState)
  | States (p : Option dualbutton.States)
  | Interrupt (p : Option io4.Interrupt)
  | Interrupts (p : Option io4.Interrupts)
  | Button (p : Option lcd20x4.Button)
  | Pressed (p : Option lcd20x4.Pressed)
  | EmptyResult (p : Option device.EmptyResult)
  | foreign (typeName : String)
  deriving DecidableEq, Repr

/-- The type assertion `value, ok := r.(*Average)`. -/
def Resulter.assertAverage : Resulter → Option analogin.Average × Bool
  | .Average p => (p, true)
  | _ => (none, false)

/-- The type assertion `value, ok := r.(*Voltage)`. -/
def Resulter.assertVoltage : Resulter → Option analogout.Voltage × Bool
  | .Voltage p => (p, true)
  | _ => (none, false)

/-- The type assertion `value, ok := r.(*State)`. -/
def Resulter.assertState : Resulter → Option dualrelay.State × Bool
  | .State p => (p, true)
  | _ => (none, false)

/-- The type assertion `value, ok := r.(*LedState)`. -/
def Resulter.assertLedState : Resulter → Option dualbutton.LedState × Bool
  | .LedState p => (p, true)
  | _ => (none, false)

/-- The type assertion `value, ok := r.(*Interrupt)`. -/
def Resulter.assertInterrupt : Resulter → Option io4.Interrupt × Bool
  | .Interrupt p => (p, true)
  | _ => (none, false)

/-- The type assertion `value, ok := r.(*Pressed)`. -/
def Resulter.assertPressed : Resulter → Option lcd20x4.Pressed × Bool
  | .Pressed p => (p, true)
  | _ => (none, false)

end device

namespace packet

/-- A value of the Go type `interface{}` handed over as outgoing data: the nil
interface, or a pointer (possibly nil) tagged with its dynamic type. -/
inductive Payload where
  | nil
  | Average (p : Option analogin.Average)
  | Voltage (p : Option analogout.Voltage)
  | StateRaw (p : Option dualrelay.StateRaw)
  | SelectedStateRaw (p : Option dualrelay.SelectedStateRaw)
  | LedState (p : Option dualbutton.LedState)
  | SelectedLedState (p : Option dualbutton.SelectedLedState)
  | Interrupt (p : Option io4.Interrupt)
  | Button (p : Option lcd20x4.Button)
  deriving DecidableEq, Repr

end packet

/-! ## What the six files use from the rest of the repository -/

/-- Names of the function and callback identifier constants used by the
builders. The constants themselves are declared in package files outside the
six embedded here. -/
inductive ConstName where
  | function_set_averaging
  | function_get_averaging
  | function_set_voltage
  | function_get_voltage
  | function_set_state
  | function_get_state
  | function_set_selected_state
  | function_set_led_state
  | function_get_led_state
  | function_set_selected_led_state
  | callback_state_changed
  | function_set_interrupt
  | function_get_interrupt
  | callback_interrupt
  | function_is_button_pressed
  | callback_button_pressed
  | callback_button_released
  deriving DecidableEq, Repr

/-- Constants and helper functions declared outside the six files, taken as
given: the identifier constants, `device.FallbackId`, the value returned by the
call of `device.GenId()`, `device.IsEmptyResultOk`, `misc.BoolToUint8` and
`misc.Uint8ToBool`. -/
structure Externals where
  fid : ConstName → Nat
  FallbackId : String → String → String
  GenId : String
  IsEmptyResultOk : device.Resulter → error → Bool
  BoolToUint8 : Bool → Nat
  Uint8ToBool : Nat → Bool

/-! ## Raw and semantic shapes (`dualrelay/state.go`, `lcd20x4/button.go`) -/

namespace dualrelay

/-- `func (s *State) FromStateRaw(sr *StateRaw)`: the receiver after the call. -/
def State.FromStateRaw (ext : Externals) (s : Option State) (sr : Option StateRaw) :
    Option State :=
  match s, sr with
  | some _, some r =>
      some { Relay1 := ext.Uint8ToBool r.Relay1, Relay2 := ext.Uint8ToBool r.Relay2 }
  | _, _ => s

/-- `func NewStateRaw(s *State) *StateRaw`. -/
def NewStateRaw (ext : Externals) (s : Option State) : Option StateRaw :=
  match s with
  | none => none
  | some v => some { Relay1 := ext.BoolToUint8 v.Relay1, Relay2 := ext.BoolToUint8 v.Relay2 }

/-- `func (s *SelectedState) FromSelectedStateRaw(sr *SelectedStateRaw)`: the
receiver after the call. -/
def SelectedState.FromSelectedStateRaw (s : Option SelectedState) (sr : Option SelectedStateRaw) :
    Option SelectedState :=
  match s, sr with
  | some _, some r => some { Relay := r.Relay, State := (r.State &&& 0x01) == 0x01 }
  | _, _ => s

/-- `func (sr *SelectedStateRaw) FromSelectedState(s *SelectedState)`: the
receiver after the call. -/
def SelectedStateRaw.FromSelectedState (sr : Option SelectedStateRaw) (s : Option SelectedState) :
    Option SelectedStateRaw :=
  match sr, s with
  | some _, some v => some { Relay := v.Relay, State := if v.State then 0x01 else 0x00 }
  | _, _ => sr

/-- `func NewSelectedStateRaw(s *SelectedState) *SelectedStateRaw`; `new` yields
a zeroed struct. -/
def NewSelectedStateRaw (s : Option SelectedState) : Option SelectedStateRaw :=
  match s with
  | none => none
  | some _ => SelectedStateRaw.FromSelectedState (some { Relay := 0, State := 0 }) s

end dualrelay

namespace lcd20x4

/-- `func (pr *Pressed) FromPressedRaw(prr *PressedRaw)`: the receiver after the call. -/
def Pressed.FromPressedRaw (ext : Externals) (pr : Option Pressed) (prr : Option PressedRaw) :
    Option Pressed :=
  match pr, prr with
  | some _, some r => some { IsPressed := ext.Uint8ToBool r.IsPressed }
  | _, _ => pr

/-- `func NewPressedRawFromPressed(pr *Pressed) *PressedRaw`. The body reads
`pr.IsPressed` without a nil test, so a nil argument panics. -/
def NewPressedRawFromPressed (ext : Externals) (pr : Option Pressed) :
    Except Panic (Option PressedRaw) :=
  match pr with
  | none => .error Panic.nilDereference
  | some v => .ok (some { IsPressed := ext.BoolToUint8 v.IsPressed })

end lcd20x4

/-! ## Copy methods

Each returns the receiver as it is after the call, paired with the returned
interface value. -/

/-- `func (a *Average) Copy() device.Resulter`. -/
def analogin.Average.Copy (a : Option analogin.Average) :
    Option analogin.Average × device.Resulter :=
  match a with
  | none => (a, .nil)
  | some v => (a, .Average (some { Value := v.Value }))

/-- `func (v *Voltage) Copy() device.Resulter`. -/
def analogout.Voltage.Copy (v : Option analogout.Voltage) :
    Option analogout.Voltage × device.Resulter :=
  match v with
  | none => (v, .nil)
  | some w => (v, .Voltage (some { Value := w.Value }))

/-- `func (s *State) Copy() device.Resulter`. -/
def dualrelay.State.Copy (s : Option dualrelay.State) :
    Option dualrelay.State × device.Resulter :=
  match s with
  | none => (s, .nil)
  | some v => (s, .State (some { Relay1 := v.Relay1, Relay2 := v.Relay2 }))

/-- `func (s *SelectedState) Copy() device.Resulter`. -/
def dualrelay.SelectedState.Copy (s : Option dualrelay.SelectedState) :
    Option dualrelay.SelectedState × device.Resulter :=
  match s with
  | none => (s, .nil)
  | some v => (s, .SelectedState (some { Relay := v.Relay, State := v.State }))

/-- `func (b *Button) Copy() device.Resulter`. -/
def lcd20x4.Button.Copy (b : Option lcd20x4.Button) :
    Option lcd20x4.Button × device.Resulter :=
  match b with
  | none => (b, .nil)
  | some v => (b, .Button (some { Number := v.Number }))

/-- `func (pr *Pressed) Copy() device.Resulter`. -/
def lcd20x4.Pressed.Copy (pr : Option lcd20x4.Pressed) :
    Option lcd20x4.Pressed × device.Resulter :=
  match pr with
  | none => (pr, .nil)
  | some v => (pr, .Pressed (some { IsPressed := v.IsPressed }))

/-! ## Descriptors: packages packet, subscription and device

These packages are declared outside the six files; the builders below only
call their constructors and setters. -/

namespace packet

/-- Modelled from the spec: `packet.Packet` is declared outside the six files.
The header carries the device address, the operation id and the flag "sender
expects a response"; the payload is the typed value handed to the constructor. -/
structure Packet where
  Uid : Nat
  Fid : Nat
  ResponseExpected : Bool
  Payload : Payload
  deriving DecidableEq, Repr

/-- Modelled from the spec: `packet.NewSimpleHeaderPayload(uid, fid, response,
payload)` is declared outside the six files; it is pure construction of a
packet from its arguments. -/
def NewSimpleHeaderPayload (uid fid : Nat) (response : Bool) (payload : Payload) :
    Option Packet :=
  some { Uid := uid, Fid := fid, ResponseExpected := response, Payload := payload }

/-- Modelled from the spec: `packet.NewSimpleHeaderOnly(uid, fid, response)` is
declared outside the six files; it builds a packet without payload. -/
def NewSimpleHeaderOnly (uid fid : Nat) (response : Bool) : Option Packet :=
  some { Uid := uid, Fid := fid, ResponseExpected := response, Payload := .nil }

end packet

namespace hash

/-- The match key policies of package hash; the six files use one of them. -/
inductive Hasher where
  | ChoosenFunctionIDUid
  deriving DecidableEq, Repr

end hash

namespace subscription

/-- Modelled from the spec: `subscription.Subscription` is declared outside the
six files. A routing record: key policy, device address, operation id, the
outgoing packet if one is to be sent (nil for pure event listeners), and the
mode, persistent (callback) or one-shot. -/
structure Subscription where
  Hasher : hash.Hasher
  Uid : Nat
  Fid : Nat
  Packet : Option packet.Packet
  Callback : Bool
  deriving DecidableEq, Repr

/-- Modelled from the spec: `subscription.New(hasher, uid, fid, packet,
callback)` is declared outside the six files; pure construction. -/
def New (h : hash.Hasher) (uid fid : Nat) (p : Option packet.Packet) (callback : Bool) :
    Option Subscription :=
  some { Hasher := h, Uid := uid, Fid := fid, Packet := p, Callback := callback }

end subscription

namespace device

/-- A Go function value `func(device.Resulter, error)`, possibly nil. What the
function does when called is a value of type `ε`. -/
abbrev Handler (ε : Type) := Option (Resulter → error → ε)

/-- Modelled from the spec: `device.Device`, the operation descriptor, is
declared outside the six files. It bundles the identifier, the subscription,
the decode target for the result and the completion handler. -/
structure Device (ε : Type) where
  Name : String
  Subscription : Option subscription.Subscription := none
  Result : Resulter := .nil
  Handler : Handler ε := none

/-- Modelled from the spec: `device.New(name)` is declared outside the six files. -/
def New {ε : Type} (name : String) : Device ε :=
  { Name := name }

/-- Modelled from the spec: `(*Device).SetSubscription` is declared outside the six files. -/
def Device.SetSubscription {ε : Type} (d : Device ε) (sub : Option subscription.Subscription) :
    Device ε :=
  { d with Subscription := sub }

/-- Modelled from the spec: `(*Device).SetResult` is declared outside the six files. -/
def Device.SetResult {ε : Type} (d : Device ε) (r : Resulter) : Device ε :=
  { d with Result := r }

/-- Modelled from the spec: `(*Device).SetHandler` is declared outside the six files. -/
def Device.SetHandler {ε : Type} (d : Device ε) (h : device.Handler ε) : Device ε :=
  { d with Handler := h }

/-- Go `device.Generator`, with the fields the composite literals in the six
files set; a field left out of a literal has its zero value. -/
structure Generator (ε : Type) where
  Id : String := ""
  Fid : Nat := 0
  Uid : Nat := 0
  Data : packet.Payload := .nil
  Result : Resulter := .nil
  Handler : Handler ε := none
  IsCallback : Bool := false
  WithPacket : Bool := false

/-- Modelled from the spec: `Generator.CreateDevice` is declared outside the six
files. It is the uniform factory that composes a subscription, an optional
outgoing packet, a decode target and a completion handler: an outgoing packet
is built exactly when `WithPacket` is set, with the payload when there is one
as the hand-written builders of dualbutton and io4 do, and the subscription is
persistent exactly when `IsCallback` is set. -/
def Generator.CreateDevice {ε : Type} (g : Generator ε) : Device ε :=
  let p : Option packet.Packet :=
    if g.WithPacket then
      match g.Data with
      | .nil => packet.NewSimpleHeaderOnly g.Uid g.Fid true
      | d => packet.NewSimpleHeaderPayload g.Uid g.Fid true d
    else none
  let sub := subscription.New hash.Hasher.ChoosenFunctionIDUid g.Uid g.Fid p g.IsCallback
  (((New g.Id).SetSubscription sub).SetResult g.Result).SetHandler g.Handler

/-- Modelled from the spec: `device.IsEmptyResultOk` is declared outside the six
files; it holds when the error is nil and the result is the empty result. -/
def IsEmptyResultOk (r : Resulter) (err : error) : Bool :=
  match err, r with
  | none, .EmptyResult _ => true
  | _, _ => false

end device

/-! ## Builders -/

namespace analogin

/-- `func SetAveraging(id string, uid uint32, a *Average, handler ...) *device.Device`. -/
def SetAveraging {ε : Type} (ext : Externals) (id : String) (uid : Nat) (a : Option Average)
    (handler : device.Handler ε) : device.Device ε :=
  device.Generator.CreateDevice {
    Id := ext.FallbackId id "SetAveraging"
    Fid := ext.fid .function_set_averaging
    Uid := uid
    Data := .Average a
    Handler := handler
    WithPacket := true }

/-- `func GetAveraging(id string, uid uint32, handler ...) *device.Device`. -/
def GetAveraging {ε : Type} (ext : Externals) (id : String) (uid : Nat)
    (handler : device.Handler ε) : device.Device ε :=
  device.Generator.CreateDevice {
    Id := ext.FallbackId id "GetAveraging"
    Fid := ext.fid .function_get_averaging
    Uid := uid
    Result := .Average (some { Value := 0 })
    Handler := handler
    WithPacket := true }

end analogin

namespace analogout

/-- `func SetVoltage(id string, uid uint32, v *Voltage, handler ...) *device.Device`. -/
def SetVoltage {ε : Type} (ext : Externals) (id : String) (uid : Nat) (v : Option Voltage)
    (handler : device.Handler ε) : device.Device ε :=
  device.Generator.CreateDevice {
    Id := ext.FallbackId id "SetVoltage"
    Fid := ext.fid .function_set_voltage
    Uid := uid
    Data := .Voltage v
    Handler := handler
    WithPacket := true }

/-- `func GetVoltage(id string, uid uint32, handler ...) *device.Device`. -/
def GetVoltage {ε : Type} (ext : Externals) (id : String) (uid : Nat)
    (handler : device.Handler ε) : device.Device ε :=
  device.Generator.CreateDevice {
    Id := ext.FallbackId id "GetVoltage"
    Fid := ext.fid .function_get_voltage
    Uid := uid
    Result := .Voltage (some { Value := 0 })
    Handler := handler
    WithPacket := true }

end analogout

namespace dualrelay

/-- `func SetState(id string, uid uint32, s *State, handler ...) *device.Device`. -/
def SetState {ε : Type} (ext : Externals) (id : String) (uid : Nat) (s : Option State)
    (handler : device.Handler ε) : device.Device ε :=
  device.Generator.CreateDevice {
    Id := ext.FallbackId id "SetState"
    Fid := ext.fid .function_set_state
    Uid := uid
    Data := .StateRaw (NewStateRaw ext s)
    Handler := handler
    WithPacket := true }

/-- `func GetState(id string, uid uint32, handler ...) *device.Device`. -/
def GetState {ε : Type} (ext : Externals) (id : String) (uid : Nat)
    (handler : device.Handler ε) : device.Device ε :=
  device.Generator.CreateDevice {
    Id := ext.FallbackId id "GetState"
    Fid := ext.fid .function_get_state
    Uid := uid
    Result := .State (some { Relay1 := false, Relay2 := false })
    Handler := handler
    WithPacket := true }

/-- `func SetSelectedState(id string, uid uint32, s *SelectedState, handler ...) *device.Device`. -/
def SetSelectedState {ε : Type} (ext : Externals) (id : String) (uid : Nat)
    (s : Option SelectedState) (handler : device.Handler ε) : device.Device ε :=
  device.Generator.CreateDevice {
    Id := ext.FallbackId id "SetSelectedState"
    Fid := ext.fid .function_set_selected_state
    Uid := uid
    Data := .SelectedStateRaw (NewSelectedStateRaw s)
    Handler := handler
    WithPacket := true }

end dualrelay

namespace dualbutton

/-- `func SetLedState(id string, uid uint32, ls *LedState, handler ...) *device.Device`. -/
def SetLedState {ε : Type} (ext : Externals) (id : String) (uid : Nat) (ls : Option LedState)
    (handler : device.Handler ε) : device.Device ε :=
  let fid := ext.fid .function_set_led_state
  let sls : device.Device ε := device.New (ext.FallbackId id "SetLedState")
  let p := packet.NewSimpleHeaderPayload uid fid true (.LedState ls)
  let sub := subscription.New hash.Hasher.ChoosenFunctionIDUid uid fid p false
  let sls := sls.SetSubscription sub
  let sls := sls.SetResult (.EmptyResult (some {}))
  let sls := sls.SetHandler handler
  sls

/-- `func GetLedState(id string, uid uint32, handler ...) *device.Device`. -/
def GetLedState {ε : Type} (ext : Externals) (id : String) (uid : Nat)
    (handler : device.Handler ε) : device.Device ε :=
  let fid := ext.fid .function_get_led_state
  let gls : device.Device ε := device.New (ext.FallbackId id "GetLedState")
  let p := packet.NewSimpleHeaderOnly uid fid true
  let sub := subscription.New hash.Hasher.ChoosenFunctionIDUid uid fid p false
  let gls := gls.SetSubscription sub
  let gls := gls.SetResult (.LedState (some { LedLeft := 0, LedRight := 0 }))
  let gls := gls.SetHandler handler
  gls

/-- `func SetSelectedLedState(id string, uid uint32, sls *SelectedLedState, handler ...)
*device.Device`. -/
def SetSelectedLedState {ε : Type} (ext : Externals) (id : String) (uid : Nat)
    (sls : Option SelectedLedState) (handler : device.Handler ε) : device.Device ε :=
  let fid := ext.fid .function_set_selected_led_state
  let ssls : device.Device ε := device.New (ext.FallbackId id "SetSelectedLedState")
  let p := packet.NewSimpleHeaderPayload uid fid true (.SelectedLedState sls)
  let sub := subscription.New hash.Hasher.ChoosenFunctionIDUid uid fid p false
  let ssls := ssls.SetSubscription sub
  let ssls := ssls.SetResult (.EmptyResult (some {}))
  let ssls := ssls.SetHandler handler
  ssls

/-- `func StateChanged(id string, uid uint32, handler ...) *device.Device`. -/
def StateChanged {ε : Type} (ext : Externals) (id : String) (uid : Nat)
    (handler : device.Handler ε) : device.Device ε :=
  let fid := ext.fid .callback_state_changed
  let sc : device.Device ε := device.New (ext.FallbackId id "InterruptTrigger")
  let sub := subscription.New hash.Hasher.ChoosenFunctionIDUid uid fid none true
  let sc := sc.SetSubscription sub
  let sc := sc.SetResult
    (.States (some { ButtonLeft := 0, ButtonRight := 0, LedLeft := 0, LedRight := 0 }))
  let sc := sc.SetHandler handler
  sc

end dualbutton

namespace io4

/-- `func SetInterrupt(id string, uid uint32, i *Interrupt, handler ...) *device.Device`. -/
def SetInterrupt {ε : Type} (ext : Externals) (id : String) (uid : Nat) (i : Option Interrupt)
    (handler : device.Handler ε) : device.Device ε :=
  let fid := ext.fid .function_set_interrupt
  let si : device.Device ε := device.New (ext.FallbackId id "SetInterrupt")
  let p := packet.NewSimpleHeaderPayload uid fid true (.Interrupt i)
  let sub := subscription.New hash.Hasher.ChoosenFunctionIDUid uid fid p false
  let si := si.SetSubscription sub
  let si := si.SetResult (.EmptyResult (some {}))
  let si := si.SetHandler handler
  si

/-- `func GetInterrupt(id string, uid uint32, handler ...) *device.Device`. -/
def GetInterrupt {ε : Type} (ext : Externals) (id : String) (uid : Nat)
    (handler : device.Handler ε) : device.Device ε :=
  let fid := ext.fid .function_get_interrupt
  let gi : device.Device ε := device.New (ext.FallbackId id "GetInterrupt")
  let p := packet.NewSimpleHeaderOnly uid fid true
  let sub := subscription.New hash.Hasher.ChoosenFunctionIDUid uid fid p false
  let gi := gi.SetSubscription sub
  let gi := gi.SetResult (.Interrupt (some { Mask := 0 }))
  let gi := gi.SetHandler handler
  gi

/-- `func InterruptTrigger(id string, uid uint32, handler ...) *device.Device`. -/
def InterruptTrigger {ε : Type} (ext : Externals) (id : String) (uid : Nat)
    (handler : device.Handler ε) : device.Device ε :=
  let fid := ext.fid .callback_interrupt
  let it : device.Device ε := device.New (ext.FallbackId id "InterruptTrigger")
  let sub := subscription.New hash.Hasher.ChoosenFunctionIDUid uid fid none true
  let it := it.SetSubscription sub
  let it := it.SetResult (.Interrupts (some { InterruptMask := 0, ValueMask := 0 }))
  let it := it.SetHandler handler
  it

end io4

namespace lcd20x4

/-- `func IsButtonPressed(id string, uid uint32, button *Button, handler ...) *device.Device`. -/
def IsButtonPressed {ε : Type} (ext : Externals) (id : String) (uid : Nat)
    (button : Option Button) (handler : device.Handler ε) : device.Device ε :=
  device.Generator.CreateDevice {
    Id := ext.FallbackId id "IsButtonPressed"
    Fid := ext.fid .function_is_button_pressed
    Uid := uid
    Result := .Pressed (some { IsPressed := false })
    Data := .Button button
    Handler := handler
    WithPacket := true }

/-- `func ButtonPressed(id string, uid uint32, handler ...) *device.Device`. -/
def ButtonPressed {ε : Type} (ext : Externals) (id : String) (uid : Nat)
    (handler : device.Handler ε) : device.Device ε :=
  device.Generator.CreateDevice {
    Id := ext.FallbackId id "ButtonPressed"
    Fid := ext.fid .callback_button_pressed
    Uid := uid
    Result := .Button (some { Number := 0 })
    Handler := handler
    IsCallback := true
    WithPacket := false }

/-- `func ButtonReleased(id string, uid uint32, handler ...) *device.Device`. -/
def ButtonReleased {ε : Type} (ext : Externals) (id : String) (uid : Nat)
    (handler : device.Handler ε) : device.Device ε :=
  device.Generator.CreateDevice {
    Id := ext.FallbackId id "ButtonReleased"
    Fid := ext.fid .callback_button_released
    Uid := uid
    Result := .Button (some { Number := 0 })
    Handler := handler
    IsCallback := true
    WithPacket := false }

end lcd20x4

/-! ## Channels and the calling goroutine

A future wrapper creates one unbuffered channel and is its only receiver. The
senders are the goroutines of the receive path that run the handler; a sender
of an unbuffered channel waits in `future <- v` until the receiver takes the
value, so the state of the channel keeps the values offered by waiting senders
in the order of the handler calls. The trace lists what the calling goroutine
itself does with the channel. -/

/-- What the calling goroutine does with its future channel. -/
inductive ChanEvent (σ : Type) where
  | make
  | recv (v : σ)
  | close
  deriving DecidableEq, Repr

/-- State of the future channel of one call. -/
structure Chan (σ : Type) where
  offered : List σ := []
  closed : Bool := false
  trace : List (ChanEvent σ) := []

/-- What a handler does when it is called: an action on the future channel. -/
abbrev Send (σ : Type) := Chan σ → Chan σ

/-- The Go statement `future <- v`, run by a goroutine of the receive path. -/
def chanSend {σ : Type} (v : σ) : Send σ :=
  fun ch => { ch with offered := ch.offered ++ [v] }

/-- How a run of the calling goroutine ends: it returns a value, or it waits
forever in a receive. -/
inductive Outcome (σ β : Type) where
  | returned (v : β) (ch : Chan σ)
  | blocked (ch : Chan σ)

/-- The value returned, if the call returns. -/
def Outcome.result {σ β : Type} : Outcome σ β → Option β
  | .returned v _ => some v
  | .blocked _ => none

/-- The channel events of the calling goroutine, oldest first. -/
def Outcome.trace {σ β : Type} : Outcome σ β → List (ChanEvent σ)
  | .returned _ ch => ch.trace
  | .blocked ch => ch.trace

/-- Code of the calling goroutine: a function of the channel state. -/
def Go (σ β : Type) := Chan σ → Outcome σ β

instance {σ : Type} : Monad (Go σ) where
  pure v := fun ch => .returned v ch
  bind m f := fun ch =>
    match m ch with
    | .returned v ch1 => f v ch1
    | .blocked ch1 => .blocked ch1

/-- Run the code of a call from a state in which nothing has happened yet. -/
def Go.run {σ β : Type} (m : Go σ β) : Outcome σ β :=
  m {}

/-- The Go statement `future := make(chan T)`. -/
def makeChan {σ : Type} : Go σ Unit :=
  fun ch => .returned () { ch with trace := ch.trace ++ [.make] }

/-- The Go call `close(future)`. -/
def closeChan {σ : Type} : Go σ Unit :=
  fun ch => .returned () { ch with closed := true, trace := ch.trace ++ [.close] }

/-- The Go expression `<-future`: take the value of the oldest waiting sender;
without a sender, a closed channel yields the zero value and an open one
blocks. -/
def recv {σ : Type} [Inhabited σ] : Go σ σ :=
  fun ch =>
    match ch.offered with
    | v :: rest => .returned v { ch with offered := rest, trace := ch.trace ++ [.recv v] }
    | [] =>
        if ch.closed then .returned default { ch with trace := ch.trace ++ [.recv default] }
        else .blocked ch

/-- The Go statement `defer d` at the head of a function with body `body`: `d`
runs when the body returns; a body that never returns never runs it. -/
def deferred {σ β : Type} (d : Go σ Unit) (body : Go σ β) : Go σ β :=
  fun ch =>
    match body ch with
    | .returned v ch1 =>
        match d ch1 with
        | .returned _ ch2 => .returned v ch2
        | .blocked ch2 => .blocked ch2
    | .blocked ch1 => .blocked ch1

namespace bricker

/-- The connector `bricker.Bricker` is declared outside the six files and is
taken as given: for a descriptor and a connector name, the error `Subscribe`
returns, and the handler calls `(r, err)` the receive path makes for that
subscription, in order. -/
structure Bricker (ε : Type) where
  subscribeError : device.Device ε → String → error
  invocations : device.Device ε → String → List (device.Resulter × error)

/-- The Go call `brick.Subscribe(sub, connectorname)` as the calling goroutine
sees it: the error comes back, and every handler call of the receive path
leaves its effect on the channel. -/
def Bricker.Subscribe {σ : Type} (brick : Bricker (Send σ)) (sub : device.Device (Send σ))
    (connectorname : String) : Go σ error :=
  fun ch =>
    .returned (brick.subscribeError sub connectorname)
      ((brick.invocations sub connectorname).foldl
        (fun c inv =>
          match sub.Handler with
          | some h => h inv.1 inv.2 c
          | none => c)
        ch)

end bricker

/-- The body shared by the future wrappers, with the descriptor `sub` and the
failure value `dflt` left open. Each wrapper below is written out from its
source; this form is only used to prove facts about all of them at once. -/
def futureBody {σ : Type} [Inhabited σ] (dflt : σ) (brick : bricker.Bricker (Send σ))
    (sub : device.Device (Send σ)) (connectorname : String) : Go σ σ := do
  makeChan
  deferred closeChan do
    let err ← brick.Subscribe sub connectorname
    if err ≠ none then
      return dflt
    recv

/-! ## Future wrappers

For each wrapper `F`, `F.sub` is the local variable `sub` of the source: the
descriptor with the handler closure. -/

/-- The descriptor `sub` of `analogin.SetAveragingFuture`. -/
def analogin.SetAveragingFuture.sub (ext : Externals) (uid : Nat)
    (a : Option analogin.Average) : device.Device (Send Bool) :=
  analogin.SetAveraging ext ("setaveragingfuture" ++ ext.GenId) uid a
    (some fun r err => chanSend (ext.IsEmptyResultOk r err))

/-- `func SetAveragingFuture(brick bricker.Bricker, connectorname string, uid uint32,
a *Average) bool`. -/
def analogin.SetAveragingFuture (ext : Externals) (brick : bricker.Bricker (Send Bool))
    (connectorname : String) (uid : Nat) (a : Option analogin.Average) :
    Go Bool Bool := do
  makeChan
  deferred closeChan do
    let sub := analogin.SetAveragingFuture.sub ext uid a
    let err ← brick.Subscribe sub connectorname
    if err ≠ none then
      return false
    recv

/-- The descriptor `sub` of `analogin.GetAveragingFuture`. -/
def analogin.GetAveragingFuture.sub (ext : Externals) (uid : Nat) :
    device.Device (Send (Option analogin.Average)) :=
  analogin.GetAveraging ext ("getaveragingfuture" ++ ext.GenId) uid
    (some fun r err =>
      let v : Option analogin.Average := none
      let v :=
        if err = none then
          match r.assertAverage with
          | (value, true) => value
          | (_, false) => v
        else v
      chanSend v)

/-- `func GetAveragingFuture(brick bricker.Bricker, connectorname string,
uid uint32) *Average`. -/
def analogin.GetAveragingFuture (ext : Externals)
    (brick : bricker.Bricker (Send (Option analogin.Average))) (connectorname : String)
    (uid : Nat) :
    Go (Option analogin.Average) (Option analogin.Average) := do
  makeChan
  deferred closeChan do
    let sub := analogin.GetAveragingFuture.sub ext uid
    let err ← brick.Subscribe sub connectorname
    if err ≠ none then
      return none
    recv

/-- The descriptor `sub` of `analogout.SetVoltageFuture`. -/
def analogout.SetVoltageFuture.sub (ext : Externals) (uid : Nat)
    (v : Option analogout.Voltage) : device.Device (Send Bool) :=
  analogout.SetVoltage ext ("setvoltagefuture" ++ ext.GenId) uid v
    (some fun r err => chanSend (ext.IsEmptyResultOk r err))

/-- `func SetVoltageFuture(brick bricker.Bricker, connectorname string, uid uint32,
v *Voltage) bool`. -/
def analogout.SetVoltageFuture (ext : Externals) (brick : bricker.Bricker (Send Bool))
    (connectorname : String) (uid : Nat) (v : Option analogout.Voltage) :
    Go Bool Bool := do
  makeChan
  deferred closeChan do
    let sub := analogout.SetVoltageFuture.sub ext uid v
    let err ← brick.Subscribe sub connectorname
    if err ≠ none then
      return false
    recv

/-- The descriptor `sub` of `analogout.GetVoltageFuture`. -/
def analogout.GetVoltageFuture.sub (ext : Externals) (uid : Nat) :
    device.Device (Send (Option analogout.Voltage)) :=
  analogout.GetVoltage ext ("getvoltagefuture" ++ ext.GenId) uid
    (some fun r err =>
      let v : Option analogout.Voltage := none
      let v :=
        if err = none then
          match r.assertVoltage with
          | (value, true) => value
          | (_, false) => v
        else v
      chanSend v)

/-- `func GetVoltageFuture(brick bricker.Bricker, connectorname string,
uid uint32) *Voltage`. -/
def analogout.GetVoltageFuture (ext : Externals)
    (brick : bricker.Bricker (Send (Option analogout.Voltage))) (connectorname : String)
    (uid : Nat) :
    Go (Option analogout.Voltage) (Option analogout.Voltage) := do
  makeChan
  deferred closeChan do
    let sub := analogout.GetVoltageFuture.sub ext uid
    let err ← brick.Subscribe sub connectorname
    if err ≠ none then
      return none
    let v ← recv
    return v

/-- The descriptor `sub` of `dualrelay.SetStateFuture`. -/
def dualrelay.SetStateFuture.sub (ext : Externals) (uid : Nat)
    (s : Option dualrelay.State) : device.Device (Send Bool) :=
  dualrelay.SetState ext ("setstatefuture" ++ ext.GenId) uid s
    (some fun r err => chanSend (ext.IsEmptyResultOk r err))

/-- `func SetStateFuture(brick bricker.Bricker, connectorname string, uid uint32,
s *State) bool`. -/
def dualrelay.SetStateFuture (ext : Externals) (brick : bricker.Bricker (Send Bool))
    (connectorname : String) (uid : Nat) (s : Option dualrelay.State) :
    Go Bool Bool := do
  makeChan
  deferred closeChan do
    let sub := dualrelay.SetStateFuture.sub ext uid s
    let err ← brick.Subscribe sub connectorname
    if err ≠ none then
      return false
    recv

/-- The descriptor `sub` of `dualrelay.GetStateFuture`. -/
def dualrelay.GetStateFuture.sub (ext : Externals) (uid : Nat) :
    device.Device (Send (Option dualrelay.State)) :=
  dualrelay.GetState ext ("getstatefuture" ++ ext.GenId) uid
    (some fun r err =>
      let v : Option dualrelay.State := none
      let v :=
        if err = none then
          match r.assertState with
          | (value, true) => value
          | (_, false) => v
        else v
      chanSend v)

/-- `func GetStateFuture(brick bricker.Bricker, connectorname string,
uid uint32) *State`. -/
def dualrelay.GetStateFuture (ext : Externals)
    (brick : bricker.Bricker (Send (Option dualrelay.State))) (connectorname : String)
    (uid : Nat) :
    Go (Option dualrelay.State) (Option dualrelay.State) := do
  makeChan
  deferred closeChan do
    let sub := dualrelay.GetStateFuture.sub ext uid
    let err ← brick.Subscribe sub connectorname
    if err ≠ none then
      return none
    recv

/-- The descriptor `sub` of `dualrelay.SetSelectedStateFuture`. -/
def dualrelay.SetSelectedStateFuture.sub (ext : Externals) (uid : Nat)
    (s : Option dualrelay.SelectedState) : device.Device (Send Bool) :=
  dualrelay.SetSelectedState ext ("setselectedstatefuture" ++ ext.GenId) uid s
    (some fun r err => chanSend (ext.IsEmptyResultOk r err))

/-- `func SetSelectedStateFuture(brick bricker.Bricker, connectorname string, uid uint32,
s *SelectedState) bool`. -/
def dualrelay.SetSelectedStateFuture (ext : Externals) (brick : bricker.Bricker (Send Bool))
    (connectorname : String) (uid : Nat) (s : Option dualrelay.SelectedState) :
    Go Bool Bool := do
  makeChan
  deferred closeChan do
    let sub := dualrelay.SetSelectedStateFuture.sub ext uid s
    let err ← brick.Subscribe sub connectorname
    if err ≠ none then
      return false
    recv

/-- The descriptor `sub` of `dualbutton.SetLedStateFuture`. -/
def dualbutton.SetLedStateFuture.sub (ext : Externals) (uid : Nat)
    (ls : Option dualbutton.LedState) : device.Device (Send Bool) :=
  dualbutton.SetLedState ext ("setledstatefuture" ++ ext.GenId) uid ls
    (some fun r err => chanSend (ext.IsEmptyResultOk r err))

/-- `func SetLedStateFuture(brick *bricker.Bricker, connectorname string, uid uint32,
ls *LedState) bool`. -/
def dualbutton.SetLedStateFuture (ext : Externals) (brick : bricker.Bricker (Send Bool))
    (connectorname : String) (uid : Nat) (ls : Option dualbutton.LedState) :
    Go Bool Bool := do
  makeChan
  deferred closeChan do
    let sub := dualbutton.SetLedStateFuture.sub ext uid ls
    let err ← brick.Subscribe sub connectorname
    if err ≠ none then
      return false
    recv

/-- The descriptor `sub` of `dualbutton.GetLedStateFuture`. -/
def dualbutton.GetLedStateFuture.sub (ext : Externals) (uid : Nat) :
    device.Device (Send (Option dualbutton.LedState)) :=
  dualbutton.GetLedState ext ("getledstatefuture" ++ ext.GenId) uid
    (some fun r err =>
      let v : Option dualbutton.LedState := none
      let v :=
        if err = none then
          match r.assertLedState with
          | (value, true) => value
          | (_, false) => v
        else v
      chanSend v)

/-- `func GetLedStateFuture(brick *bricker.Bricker, connectorname string,
uid uint32) *LedState`. -/
def dualbutton.GetLedStateFuture (ext : Externals)
    (brick : bricker.Bricker (Send (Option dualbutton.LedState))) (connectorname : String)
    (uid : Nat) :
    Go (Option dualbutton.LedState) (Option dualbutton.LedState) := do
  makeChan
  deferred closeChan do
    let sub := dualbutton.GetLedStateFuture.sub ext uid
    let err ← brick.Subscribe sub connectorname
    if err ≠ none then
      return none
    recv

/-- The descriptor `sub` of `dualbutton.SetSelectedLedStateFuture`. -/
def dualbutton.SetSelectedLedStateFuture.sub (ext : Externals) (uid : Nat)
    (sls : Option dualbutton.SelectedLedState) : device.Device (Send Bool) :=
  dualbutton.SetSelectedLedState ext ("setselectedledstatefuture" ++ ext.GenId) uid sls
    (some fun r err => chanSend (ext.IsEmptyResultOk r err))

/-- `func SetSelectedLedStateFuture(brick *bricker.Bricker, connectorname string, uid uint32,
sls *SelectedLedState) bool`. -/
def dualbutton.SetSelectedLedStateFuture (ext : Externals) (brick : bricker.Bricker (Send Bool))
    (connectorname : String) (uid : Nat) (sls : Option dualbutton.SelectedLedState) :
    Go Bool Bool := do
  makeChan
  deferred closeChan do
    let sub := dualbutton.SetSelectedLedStateFuture.sub ext uid sls
    let err ← brick.Subscribe sub connectorname
    if err ≠ none then
      return false
    recv

/-- The descriptor `sub` of `io4.SetInterruptFuture`. -/
def io4.SetInterruptFuture.sub (ext : Externals) (uid : Nat)
    (i : Option io4.Interrupt) : device.Device (Send Bool) :=
  io4.SetInterrupt ext ("setinterruptfuture" ++ ext.GenId) uid i
    (some fun r err => chanSend (ext.IsEmptyResultOk r err))

/-- `func SetInterruptFuture(brick *bricker.Bricker, connectorname string, uid uint32,
i *Interrupt) bool`. -/
def io4.SetInterruptFuture (ext : Externals) (brick : bricker.Bricker (Send Bool))
    (connectorname : String) (uid : Nat) (i : Option io4.Interrupt) :
    Go Bool Bool := do
  makeChan
  deferred closeChan do
    let sub := io4.SetInterruptFuture.sub ext uid i
    let err ← brick.Subscribe sub connectorname
    if err ≠ none then
      return false
    recv

/-- The descriptor `sub` of `io4.GetInterruptFuture`. -/
def io4.GetInterruptFuture.sub (ext : Externals) (uid : Nat) :
    device.Device (Send (Option io4.Interrupt)) :=
  io4.GetInterrupt ext ("getinterruptfuture" ++ ext.GenId) uid
    (some fun r err =>
      let v : Option io4.Interrupt := none
      let v :=
        if err = none then
          match r.assertInterrupt with
          | (value, true) => value
          | (_, false) => v
        else v
      chanSend v)

/-- `func GetInterruptFuture(brick *bricker.Bricker, connectorname string,
uid uint32) *Interrupt`. -/
def io4.GetInterruptFuture (ext : Externals)
    (brick : bricker.Bricker (Send (Option io4.Interrupt))) (connectorname : String)
    (uid : Nat) :
    Go (Option io4.Interrupt) (Option io4.Interrupt) := do
  makeChan
  deferred closeChan do
    let sub := io4.GetInterruptFuture.sub ext uid
    let err ← brick.Subscribe sub connectorname
    if err ≠ none then
      return none
    recv

/-- The descriptor `sub` of `lcd20x4.IsButtonPressedFuture`. -/
def lcd20x4.IsButtonPressedFuture.sub (ext : Externals) (uid : Nat)
    (button : Option lcd20x4.Button) : device.Device (Send (Option lcd20x4.Pressed)) :=
  lcd20x4.IsButtonPressed ext ("isbuttonpressedfuture" ++ ext.GenId) uid button
    (some fun r err =>
      let v : Option lcd20x4.Pressed := none
      let v :=
        if err = none then
          match r.assertPressed with
          | (value, true) => value
          | (_, false) => v
        else v
      chanSend v)

/-- `func IsButtonPressedFuture(brick *bricker.Bricker, connectorname string,
uid uint32, button *Button) *Pressed`. -/
def lcd20x4.IsButtonPressedFuture (ext : Externals)
    (brick : bricker.Bricker (Send (Option lcd20x4.Pressed))) (connectorname : String)
    (uid : Nat) (button : Option lcd20x4.Button) :
    Go (Option lcd20x4.Pressed) (Option lcd20x4.Pressed) := do
  makeChan
  deferred closeChan do
    let sub := lcd20x4.IsButtonPressedFuture.sub ext uid button
    let err ← brick.Subscribe sub connectorname
    if err ≠ none then
      return none
    let v ← recv
    return v

/-- `func IsButtonPressedFutureSimple(brick *bricker.Bricker, connectorname string,
uid uint32, button *Button) bool`. -/
def lcd20x4.IsButtonPressedFutureSimple (ext : Externals)
    (brick : bricker.Bricker (Send (Option lcd20x4.Pressed))) (connectorname : String)
    (uid : Nat) (button : Option lcd20x4.Button) : Go (Option lcd20x4.Pressed) Bool := do
  let p ← lcd20x4.IsButtonPressedFuture ext brick connectorname uid button
  match p with
  | none => return false
  | some v => return v.IsPressed

/-! ## FromPacket of the two-step result types

`device.CheckForFromPacket` and `(*Payload).Decode` are declared outside the six
files and are taken as given. -/

/-- What `FromPacket` calls outside the six files. `CheckForFromPacket` is the
check made first, on the receiver and the packet; it returns an error and
writes nothing. Each `Decode` field is `p.Payload.Decode(target)` for a target
of one raw shape: from the packet and the contents of the target before the
call it gives the contents of the target after the call and the error
returned. Nothing is assumed about what a failing decode leaves in its
target. -/
structure Decoding where
  CheckForFromPacket : device.Resulter → Option packet.Packet → error
  DecodeStateRaw : packet.Packet → dualrelay.StateRaw → dualrelay.StateRaw × error
  DecodeSelectedStateRaw :
    packet.Packet → dualrelay.SelectedStateRaw → dualrelay.SelectedStateRaw × error
  DecodePressedRaw : packet.Packet → lcd20x4.PressedRaw → lcd20x4.PressedRaw × error

/-- `func (s *State) FromPacket(p *packet.Packet) error`: the receiver after the
call and the error returned. Reading `p.Payload` of a nil packet panics. -/
def dualrelay.State.FromPacket (ext : Externals) (dec : Decoding) (s : Option dualrelay.State)
    (p : Option packet.Packet) : Except Panic (Option dualrelay.State × error) :=
  match dec.CheckForFromPacket (.State s) p with
  | some e => .ok (s, some e)
  | none =>
      let sr : dualrelay.StateRaw := { Relay1 := 0, Relay2 := 0 }
      match p with
      | none => .error Panic.nilDereference
      | some pk =>
          let (raw, err) := dec.DecodeStateRaw pk sr
          let sr : Option dualrelay.StateRaw := some raw
          if err = none ∧ sr ≠ none then
            .ok (dualrelay.State.FromStateRaw ext s sr, err)
          else
            .ok (s, err)

/-- `func (s *SelectedState) FromPacket(p *packet.Packet) error`: the receiver
after the call and the error returned. Reading `p.Payload` of a nil packet
panics. -/
def dualrelay.SelectedState.FromPacket (dec : Decoding) (s : Option dualrelay.SelectedState)
    (p : Option packet.Packet) : Except Panic (Option dualrelay.SelectedState × error) :=
  match dec.CheckForFromPacket (.SelectedState s) p with
  | some e => .ok (s, some e)
  | none =>
      let sr : dualrelay.SelectedStateRaw := { Relay := 0, State := 0 }
      match p with
      | none => .error Panic.nilDereference
      | some pk =>
          let (raw, err) := dec.DecodeSelectedStateRaw pk sr
          let sr : Option dualrelay.SelectedStateRaw := some raw
          if err = none ∧ sr ≠ none then
            .ok (dualrelay.SelectedState.FromSelectedStateRaw s sr, err)
          else
            .ok (s, err)

/-- `func (pr *Pressed) FromPacket(p *packet.Packet) error`: the receiver after
the call and the error returned. Reading `p.Payload` of a nil packet panics. -/
def lcd20x4.Pressed.FromPacket (ext : Externals) (dec : Decoding) (pr : Option lcd20x4.Pressed)
    (p : Option packet.Packet) : Except Panic (Option lcd20x4.Pressed × error) :=
  match dec.CheckForFromPacket (.Pressed pr) p with
  | some e => .ok (pr, some e)
  | none =>
      let prr : lcd20x4.PressedRaw := { IsPressed := 0 }
      match p with
      | none => .error Panic.nilDereference
      | some pk =>
          let (raw, err) := dec.DecodePressedRaw pk prr
          let prr : Option lcd20x4.PressedRaw := some raw
          if err = none then
            .ok (lcd20x4.Pressed.FromPressedRaw ext pr prr, err)
          else
            .ok (pr, err)

/-! ## Properties of calls and descriptors, and sample inputs -/

/-- The call returned `dflt`, and its goroutine performed no receive. -/
def ReturnsWithoutReceive {σ β : Type} (dflt : β) (o : Outcome σ β) : Prop :=
  o.result = some dflt ∧ ∀ v, ChanEvent.recv v ∉ o.trace

/-- The typed flavour: the call returns the pointer held by `r` when there is
no error and `r` has the dynamic type tagged by `tag`, and nil in every other
case. -/
def ReturnsTypedResult {α : Type} (tag : Option α → device.Resulter) (r : device.Resulter)
    (err : error) (o : Outcome (Option α) (Option α)) : Prop :=
  (∀ p, err = none → r = tag p → o.result = some p)
    ∧ ((err ≠ none ∨ ∀ p, r ≠ tag p) → o.result = some none)

/-- The acknowledgement flavour: the call returns `device.IsEmptyResultOk(r, err)`;
when that function is "the error is nil and the result is the empty result",
the call returns true exactly when no error occurred and the result is the
empty result, and false whenever there is an error. -/
def ReturnsAcknowledgement (ext : Externals) (r : device.Resulter) (err : error)
    (o : Outcome Bool Bool) : Prop :=
  o.result = some (ext.IsEmptyResultOk r err)
    ∧ (ext.IsEmptyResultOk = device.IsEmptyResultOk →
        (o.result = some true ↔ err = none ∧ ∃ p, r = device.Resulter.EmptyResult p)
          ∧ (err ≠ none → o.result = some false))

/-- Channel discipline of a call whose `Subscribe` returned `subErr` and whose
handler was called `handlerCalls` times. Whenever the call returns, its trace
holds exactly one close; after a successful `Subscribe` the trace is make, one
receive of the returned value, close; after a failed one it is make, close.
The call fails to return only when `Subscribe` succeeded and the handler was
never called. -/
def ClosesOnceOnExit {σ : Type} [DecidableEq σ] (subErr : error) (handlerCalls : Nat)
    (o : Outcome σ σ) : Prop :=
  (∀ v, o.result = some v →
      o.trace.count ChanEvent.close = 1
        ∧ (subErr = none → o.trace = [.make, .recv v, .close])
        ∧ (subErr ≠ none → o.trace = [.make, .close]))
    ∧ (o.result = none → subErr = none ∧ handlerCalls = 0)

/-- The descriptor is an event listener: its subscription is persistent
(callback) and carries no outgoing packet. -/
def device.Device.IsListener {ε : Type} (d : device.Device ε) : Prop :=
  ∃ sub, d.Subscription = some sub ∧ sub.Callback = true ∧ sub.Packet = none

/-- The descriptor is a request: its subscription is one-shot (not a callback)
and carries an outgoing packet. -/
def device.Device.IsRequest {ε : Type} (d : device.Device ε) : Prop :=
  ∃ sub p, d.Subscription = some sub ∧ sub.Callback = false ∧ sub.Packet = some p

/-- A connector that knows no transport: `Subscribe` fails for every descriptor. -/
def refusingBricker (ε : Type) : bricker.Bricker ε where
  subscribeError := fun _ _ => some "connector name does not exist"
  invocations := fun _ _ => []

/-- A connector that accepts every descriptor and whose receive path calls the
handler once, with `(r, err)`. -/
def answeringBricker (ε : Type) (r : device.Resulter) (err : error) : bricker.Bricker ε where
  subscribeError := fun _ _ => none
  invocations := fun _ _ => [(r, err)]

/-- Sample externals: every identifier constant is 1, the fallback id is the
label, ids are numbered "1", booleans travel as 0 and 1. -/
def sampleExternals : Externals where
  fid := fun _ => 1
  FallbackId := fun id fb => if id = "" then fb else id
  GenId := "1"
  IsEmptyResultOk := device.IsEmptyResultOk
  BoolToUint8 := fun b => if b then 1 else 0
  Uint8ToBool := fun n => n != 0

/-- The outgoing data of a descriptor: the payload of the packet its
subscription carries, when it carries one. -/
def device.Device.outgoingData {ε : Type} (d : device.Device ε) : Option packet.Payload :=
  match d.Subscription with
  | none => none
  | some sub =>
      match sub.Packet with
      | none => none
      | some p => some p.Payload

/-- A sample of the decoding side: the check rejects a nil receiver and a nil
packet; a decode succeeds when the packet carries a value with the fields of
the raw shape asked for, and otherwise fails after it has overwritten its
target. -/
def sampleDecoding : Decoding where
  CheckForFromPacket := fun r p =>
    match r, p with
    | _, none => some "packet is nil"
    | .nil, _ => some "result is nil"
    | .State none, _ => some "result is nil"
    | .SelectedState none, _ => some "result is nil"
    | .Pressed none, _ => some "result is nil"
    | _, _ => none
  DecodeStateRaw := fun pk _ =>
    match pk.Payload with
    | .StateRaw (some raw) => (raw, none)
    | _ => ({ Relay1 := 0xFF, Relay2 := 0xFF }, some "payload has the wrong length")
  DecodeSelectedStateRaw := fun pk _ =>
    match pk.Payload with
    | .SelectedStateRaw (some raw) => (raw, none)
    | _ => ({ Relay := 0xFF, State := 0xFF }, some "payload has the wrong length")
  DecodePressedRaw := fun pk _ =>
    match pk.Payload with
    | .Button (some b) => ({ IsPressed := b.Number }, none)
    | _ => ({ IsPressed := 0xFF }, some "payload has the wrong length")

/-! ## Theorems -/

/-! ### The calling goroutine -/

theorem foldl_handler_offers {σ : Type} (f : device.Resulter → error → σ)
    (invs : List (device.Resulter × error)) (ch : Chan σ) :
    invs.foldl (fun c inv => chanSend (f inv.1 inv.2) c) ch
      = { ch with offered := ch.offered ++ invs.map (fun inv => f inv.1 inv.2) } := by
  induction invs generalizing ch with
  | nil => simp
  | cons inv rest ih =>
      rw [List.foldl_cons, ih]
      simp [chanSend]

theorem subscribe_offers {σ : Type} (brick : bricker.Bricker (Send σ))
    (sub : device.Device (Send σ)) (name : String) (f : device.Resulter → error → σ)
    (hh : sub.Handler = some (fun r err => chanSend (f r err))) (ch : Chan σ) :
    brick.Subscribe sub name ch
      = .returned (brick.subscribeError sub name)
          { ch with offered := ch.offered
              ++ (brick.invocations sub name).map (fun inv => f inv.1 inv.2) } := by
  unfold bricker.Bricker.Subscribe
  rw [hh]
  simp only []
  rw [foldl_handler_offers]

theorem futureBody_run {σ : Type} [Inhabited σ] (dflt : σ) (brick : bricker.Bricker (Send σ))
    (sub : device.Device (Send σ)) (name : String) (f : device.Resulter → error → σ)
    (hh : sub.Handler = some (fun r err => chanSend (f r err))) :
    (futureBody dflt brick sub name).run
      = match brick.subscribeError sub name, brick.invocations sub name with
        | some _, invs =>
            .returned dflt
              { offered := invs.map (fun inv => f inv.1 inv.2), closed := true,
                trace := [.make, .close] }
        | none, inv :: rest =>
            .returned (f inv.1 inv.2)
              { offered := rest.map (fun inv => f inv.1 inv.2), closed := true,
                trace := [.make, .recv (f inv.1 inv.2), .close] }
        | none, [] => .blocked { offered := [], closed := false, trace := [.make] } := by
  simp only [futureBody, Go.run, bind, pure, makeChan, deferred, closeChan,
    subscribe_offers brick sub name f hh]
  cases he : brick.subscribeError sub name with
  | some e => simp
  | none =>
      cases hi : brick.invocations sub name with
      | nil => simp [recv]
      | cons inv rest => simp [recv]

theorem Go.bind_pure {σ β : Type} (m : Go σ β) : (m >>= fun v => pure v) = m := by
  funext ch
  simp only [bind, pure]
  cases m ch <;> rfl

theorem futureBody_returns_default {σ : Type} [Inhabited σ] (dflt : σ)
    (brick : bricker.Bricker (Send σ)) (sub : device.Device (Send σ)) (name : String)
    (f : device.Resulter → error → σ)
    (hh : sub.Handler = some (fun r err => chanSend (f r err)))
    (he : brick.subscribeError sub name ≠ none) :
    ReturnsWithoutReceive dflt (futureBody dflt brick sub name).run := by
  rw [futureBody_run dflt brick sub name f hh]
  cases hs : brick.subscribeError sub name with
  | none => exact absurd hs he
  | some e => simp [ReturnsWithoutReceive, Outcome.result, Outcome.trace]

theorem futureBody_returns_sent {σ : Type} [Inhabited σ] (dflt : σ)
    (brick : bricker.Bricker (Send σ)) (sub : device.Device (Send σ)) (name : String)
    (f : device.Resulter → error → σ)
    (hh : sub.Handler = some (fun r err => chanSend (f r err)))
    (r : device.Resulter) (err : error)
    (he : brick.subscribeError sub name = none)
    (hi : brick.invocations sub name = [(r, err)]) :
    (futureBody dflt brick sub name).run.result = some (f r err) := by
  rw [futureBody_run dflt brick sub name f hh, he, hi]
  rfl

theorem futureBody_closes_once {σ : Type} [Inhabited σ] [DecidableEq σ] (dflt : σ)
    (brick : bricker.Bricker (Send σ)) (sub : device.Device (Send σ)) (name : String)
    (f : device.Resulter → error → σ)
    (hh : sub.Handler = some (fun r err => chanSend (f r err))) :
    ClosesOnceOnExit (brick.subscribeError sub name) (brick.invocations sub name).length
      (futureBody dflt brick sub name).run := by
  rw [futureBody_run dflt brick sub name f hh]
  cases brick.subscribeError sub name with
  | some e => simp [ClosesOnceOnExit, Outcome.result, Outcome.trace]
  | none =>
      cases brick.invocations sub name with
      | nil => simp [ClosesOnceOnExit, Outcome.result, Outcome.trace]
      | cons inv rest =>
          simp only [ClosesOnceOnExit, Outcome.result, Outcome.trace]
          refine ⟨fun v hv => ?_, fun h => by simp at h⟩
          simp only [Option.some.injEq] at hv
          subst hv
          simp

theorem isEmptyResultOk_true_iff (r : device.Resulter) (err : error) :
    device.IsEmptyResultOk r err = true
      ↔ err = none ∧ ∃ p, r = device.Resulter.EmptyResult p := by
  cases err <;> cases r <;> simp [device.IsEmptyResultOk]

theorem futureBody_acknowledges (ext : Externals) (brick : bricker.Bricker (Send Bool))
    (sub : device.Device (Send Bool)) (name : String)
    (hh : sub.Handler = some (fun r err => chanSend (ext.IsEmptyResultOk r err)))
    (r : device.Resulter) (err : error)
    (he : brick.subscribeError sub name = none)
    (hi : brick.invocations sub name = [(r, err)]) :
    ReturnsAcknowledgement ext r err (futureBody false brick sub name).run := by
  have h := futureBody_returns_sent false brick sub name _ hh r err he hi
  refine ⟨h, fun hx => ?_⟩
  rw [h, hx]
  refine ⟨?_, fun hne => ?_⟩
  · rw [Option.some.injEq]
    exact isEmptyResultOk_true_iff r err
  · cases err with
    | none => exact absurd rfl hne
    | some e => cases r <;> rfl

/-! ### Each wrapper is the shared body at its own descriptor -/

theorem analogin.SetAveragingFuture_eq_futureBody (ext : Externals)
    (brick : bricker.Bricker (Send Bool)) (name : String) (uid : Nat) (a : Option analogin.Average) :
    analogin.SetAveragingFuture ext brick name uid a
      = futureBody false brick (analogin.SetAveragingFuture.sub ext uid a) name := rfl

theorem analogin.GetAveragingFuture_eq_futureBody (ext : Externals)
    
        (brick : bricker.Bricker (Send (Option analogin.Average))) (name : String) (uid : Nat) :
    analogin.GetAveragingFuture ext brick name uid
      = futureBody none brick (analogin.GetAveragingFuture.sub ext uid) name := rfl

theorem analogout.SetVoltageFuture_eq_futureBody (ext : Externals)
    (brick : bricker.Bricker (Send Bool)) (name : String) (uid : Nat) (v : Option analogout.Voltage) :
    analogout.SetVoltageFuture ext brick name uid v
      = futureBody false brick (analogout.SetVoltageFuture.sub ext uid v) name := rfl

theorem analogout.GetVoltageFuture_eq_futureBody (ext : Externals)
    
        (brick : bricker.Bricker (Send (Option analogout.Voltage))) (name : String) (uid : Nat) :
    analogout.GetVoltageFuture ext brick name uid
      = futureBody none brick (analogout.GetVoltageFuture.sub ext uid) name := by
  simp only [analogout.GetVoltageFuture, futureBody, Go.bind_pure]

theorem dualrelay.SetStateFuture_eq_futureBody (ext : Externals)
    (brick : bricker.Bricker (Send Bool)) (name : String) (uid : Nat) (s : Option dualrelay.State) :
    dualrelay.SetStateFuture ext brick name uid s
      = futureBody false brick (dualrelay.SetStateFuture.sub ext uid s) name := rfl

theorem dualrelay.GetStateFuture_eq_futureBody (ext : Externals)
    
        (brick : bricker.Bricker (Send (Option dualrelay.State))) (name : String) (uid : Nat) :
    dualrelay.GetStateFuture ext brick name uid
      = futureBody none brick (dualrelay.GetStateFuture.sub ext uid) name := rfl

theorem dualrelay.SetSelectedStateFuture_eq_futureBody (ext : Externals)
    (brick : bricker.Bricker (Send Bool)) (name : String) (uid : Nat) (s : Option dualrelay.SelectedState) :
    dualrelay.SetSelectedStateFuture ext brick name uid s
      = futureBody false brick (dualrelay.SetSelectedStateFuture.sub ext uid s) name := rfl

theorem dualbutton.SetLedStateFuture_eq_futureBody (ext : Externals)
    (brick : bricker.Bricker (Send Bool)) (name : String) (uid : Nat) (ls : Option dualbutton.LedState) :
    dualbutton.SetLedStateFuture ext brick name uid ls
      = futureBody false brick (dualbutton.SetLedStateFuture.sub ext uid ls) name := rfl

theorem dualbutton.GetLedStateFuture_eq_futureBody (ext : Externals)
    
        (brick : bricker.Bricker (Send (Option dualbutton.LedState))) (name : String) (uid : Nat) :
    dualbutton.GetLedStateFuture ext brick name uid
      = futureBody none brick (dualbutton.GetLedStateFuture.sub ext uid) name := rfl

theorem dualbutton.SetSelectedLedStateFuture_eq_futureBody (ext : Externals)
    (brick : bricker.Bricker (Send Bool)) (name : String) (uid : Nat) (sls : Option dualbutton.SelectedLedState) :
    dualbutton.SetSelectedLedStateFuture ext brick name uid sls
      = futureBody false brick (dualbutton.SetSelectedLedStateFuture.sub ext uid sls) name := rfl

theorem io4.SetInterruptFuture_eq_futureBody (ext : Externals)
    (brick : bricker.Bricker (Send Bool)) (name : String) (uid : Nat) (i : Option io4.Interrupt) :
    io4.SetInterruptFuture ext brick name uid i
      = futureBody false brick (io4.SetInterruptFuture.sub ext uid i) name := rfl

theorem io4.GetInterruptFuture_eq_futureBody (ext : Externals)
    
        (brick : bricker.Bricker (Send (Option io4.Interrupt))) (name : String) (uid : Nat) :
    io4.GetInterruptFuture ext brick name uid
      = futureBody none brick (io4.GetInterruptFuture.sub ext uid) name := rfl

theorem lcd20x4.IsButtonPressedFuture_eq_futureBody (ext : Externals)
    
        (brick : bricker.Bricker (Send (Option lcd20x4.Pressed))) (name : String) (uid : Nat) (button : Option lcd20x4.Button) :
    lcd20x4.IsButtonPressedFuture ext brick name uid button
      = futureBody none brick (lcd20x4.IsButtonPressedFuture.sub ext uid button) name := by
  simp only [lcd20x4.IsButtonPressedFuture, futureBody, Go.bind_pure]

theorem lcd20x4.IsButtonPressedFutureSimple_of_error (ext : Externals)
    (brick : bricker.Bricker (Send (Option lcd20x4.Pressed))) (name : String) (uid : Nat)
    (button : Option lcd20x4.Button)
    (he : brick.subscribeError (lcd20x4.IsButtonPressedFuture.sub ext uid button) name ≠ none) :
    ReturnsWithoutReceive false
      (lcd20x4.IsButtonPressedFutureSimple ext brick name uid button).run := by
  have h := futureBody_run none brick (lcd20x4.IsButtonPressedFuture.sub ext uid button) name _ rfl
  simp only [Go.run] at h
  simp only [lcd20x4.IsButtonPressedFutureSimple, Go.run, bind,
    lcd20x4.IsButtonPressedFuture_eq_futureBody, h]
  cases hs : brick.subscribeError (lcd20x4.IsButtonPressedFuture.sub ext uid button) name with
  | none => exact absurd hs he
  | some e => simp [ReturnsWithoutReceive, Outcome.result, Outcome.trace, pure]

/-! ### Claims about the future wrappers -/

/-- C1: in each of the thirteen future wrappers, and in
IsButtonPressedFutureSimple, when Subscribe returns a non-nil error for the
descriptor the wrapper built, the wrapper returns its failure value (false for
the boolean flavour, nil for the typed flavour) and its goroutine performs no
receive on the future channel, so it does not block. -/
theorem future_subscribe_error_returns_default :
    (∀ (ext : Externals) (brick : bricker.Bricker (Send Bool))
        (name : String) (uid : Nat) (a : Option analogin.Average),
        brick.subscribeError (analogin.SetAveragingFuture.sub ext uid a) name ≠ none →
        ReturnsWithoutReceive false (analogin.SetAveragingFuture ext brick name uid a).run)
      ∧ (∀ (ext : Externals) 
        (brick : bricker.Bricker (Send (Option analogin.Average)))
        (name : String) (uid : Nat),
        brick.subscribeError (analogin.GetAveragingFuture.sub ext uid) name ≠ none →
        ReturnsWithoutReceive none (analogin.GetAveragingFuture ext brick name uid).run)
      ∧ (∀ (ext : Externals) (brick : bricker.Bricker (Send Bool))
        (name : String) (uid : Nat) (v : Option analogout.Voltage),
        brick.subscribeError (analogout.SetVoltageFuture.sub ext uid v) name ≠ none →
        ReturnsWithoutReceive false (analogout.SetVoltageFuture ext brick name uid v).run)
      ∧ (∀ (ext : Externals) 
        (brick : bricker.Bricker (Send (Option analogout.Voltage)))
        (name : String) (uid : Nat),
        brick.subscribeError (analogout.GetVoltageFuture.sub ext uid) name ≠ none →
        ReturnsWithoutReceive none (analogout.GetVoltageFuture ext brick name uid).run)
      ∧ (∀ (ext : Externals) (brick : bricker.Bricker (Send Bool))
        (name : String) (uid : Nat) (s : Option dualrelay.State),
        brick.subscribeError (dualrelay.SetStateFuture.sub ext uid s) name ≠ none →
        ReturnsWithoutReceive false (dualrelay.SetStateFuture ext brick name uid s).run)
      ∧ (∀ (ext : Externals) 
        (brick : bricker.Bricker (Send (Option dualrelay.State)))
        (name : String) (uid : Nat),
        brick.subscribeError (dualrelay.GetStateFuture.sub ext uid) name ≠ none →
        ReturnsWithoutReceive none (dualrelay.GetStateFuture ext brick name uid).run)
      ∧ (∀ (ext : Externals) (brick : bricker.Bricker (Send Bool))
        (name : String) (uid : Nat) (s : Option dualrelay.SelectedState),
        brick.subscribeError (dualrelay.SetSelectedStateFuture.sub ext uid s) name ≠ none →
        ReturnsWithoutReceive false (dualrelay.SetSelectedStateFuture ext brick name uid s).run)
      ∧ (∀ (ext : Externals) (brick : bricker.Bricker (Send Bool))
        (name : String) (uid : Nat) (ls : Option dualbutton.LedState),
        brick.subscribeError (dualbutton.SetLedStateFuture.sub ext uid ls) name ≠ none →
        ReturnsWithoutReceive false (dualbutton.SetLedStateFuture ext brick name uid ls).run)
      ∧ (∀ (ext : Externals) 
        (brick : bricker.Bricker (Send (Option dualbutton.LedState)))
        (name : String) (uid : Nat),
        brick.subscribeError (dualbutton.GetLedStateFuture.sub ext uid) name ≠ none →
        ReturnsWithoutReceive none (dualbutton.GetLedStateFuture ext brick name uid).run)
      ∧ (∀ (ext : Externals) (brick : bricker.Bricker (Send Bool))
        (name : String) (uid : Nat) (sls : Option dualbutton.SelectedLedState),
        brick.subscribeError (dualbutton.SetSelectedLedStateFuture.sub ext uid sls) name ≠ none →
        ReturnsWithoutReceive false (dualbutton.SetSelectedLedStateFuture ext brick name uid sls).run)
      ∧ (∀ (ext : Externals) (brick : bricker.Bricker (Send Bool))
        (name : String) (uid : Nat) (i : Option io4.Interrupt),
        brick.subscribeError (io4.SetInterruptFuture.sub ext uid i) name ≠ none →
        ReturnsWithoutReceive false (io4.SetInterruptFuture ext brick name uid i).run)
      ∧ (∀ (ext : Externals) 
        (brick : bricker.Bricker (Send (Option io4.Interrupt)))
        (name : String) (uid : Nat),
        brick.subscribeError (io4.GetInterruptFuture.sub ext uid) name ≠ none →
        ReturnsWithoutReceive none (io4.GetInterruptFuture ext brick name uid).run)
      ∧ (∀ (ext : Externals) 
        (brick : bricker.Bricker (Send (Option lcd20x4.Pressed)))
        (name : String) (uid : Nat) (button : Option lcd20x4.Button),
        brick.subscribeError (lcd20x4.IsButtonPressedFuture.sub ext uid button) name ≠ none →
        ReturnsWithoutReceive none (lcd20x4.IsButtonPressedFuture ext brick name uid button).run)
      ∧ (∀ (ext : Externals) (brick : bricker.Bricker (Send (Option lcd20x4.Pressed)))
        (name : String) (uid : Nat) (button : Option lcd20x4.Button),
        brick.subscribeError (lcd20x4.IsButtonPressedFuture.sub ext uid button) name ≠ none →
        ReturnsWithoutReceive false
          (lcd20x4.IsButtonPressedFutureSimple ext brick name uid button).run) :=
  ⟨(fun ext brick name uid a he => by
      rw [analogin.SetAveragingFuture_eq_futureBody]
      exact futureBody_returns_default false brick _ name _ rfl he),
    (fun ext brick name uid he => by
      rw [analogin.GetAveragingFuture_eq_futureBody]
      exact futureBody_returns_default none brick _ name _ rfl he),
    (fun ext brick name uid v he => by
      rw [analogout.SetVoltageFuture_eq_futureBody]
      exact futureBody_returns_default false brick _ name _ rfl he),
    (fun ext brick name uid he => by
      rw [analogout.GetVoltageFuture_eq_futureBody]
      exact futureBody_returns_default none brick _ name _ rfl he),
    (fun ext brick name uid s he => by
      rw [dualrelay.SetStateFuture_eq_futureBody]
      exact futureBody_returns_default false brick _ name _ rfl he),
    (fun ext brick name uid he => by
      rw [dualrelay.GetStateFuture_eq_futureBody]
      exact futureBody_returns_default none brick _ name _ rfl he),
    (fun ext brick name uid s he => by
      rw [dualrelay.SetSelectedStateFuture_eq_futureBody]
      exact futureBody_returns_default false brick _ name _ rfl he),
    (fun ext brick name uid ls he => by
      rw [dualbutton.SetLedStateFuture_eq_futureBody]
      exact futureBody_returns_default false brick _ name _ rfl he),
    (fun ext brick name uid he => by
      rw [dualbutton.GetLedStateFuture_eq_futureBody]
      exact futureBody_returns_default none brick _ name _ rfl he),
    (fun ext brick name uid sls he => by
      rw [dualbutton.SetSelectedLedStateFuture_eq_futureBody]
      exact futureBody_returns_default false brick _ name _ rfl he),
    (fun ext brick name uid i he => by
      rw [io4.SetInterruptFuture_eq_futureBody]
      exact futureBody_returns_default false brick _ name _ rfl he),
    (fun ext brick name uid he => by
      rw [io4.GetInterruptFuture_eq_futureBody]
      exact futureBody_returns_default none brick _ name _ rfl he),
    (fun ext brick name uid button he => by
      rw [lcd20x4.IsButtonPressedFuture_eq_futureBody]
      exact futureBody_returns_default none brick _ name _ rfl he),
    lcd20x4.IsButtonPressedFutureSimple_of_error⟩

/-- The theorem above for SetAveragingFuture at a connector that knows no
transport. -/
theorem future_subscribe_error_returns_default_witness :
    (refusingBricker (Send Bool)).subscribeError
        (analogin.SetAveragingFuture.sub sampleExternals 7 (some { Value := 50 })) "tcp" ≠ none
      ∧ ReturnsWithoutReceive false
          (analogin.SetAveragingFuture sampleExternals (refusingBricker (Send Bool)) "tcp" 7
            (some { Value := 50 })).run :=
  ⟨by simp [refusingBricker],
    future_subscribe_error_returns_default.1 sampleExternals (refusingBricker (Send Bool)) "tcp" 7
      (some { Value := 50 }) (by simp [refusingBricker])⟩

/-- C2: in each typed future wrapper, when Subscribe returns nil and the handler
is called once with (r, err), the wrapper returns the pointer r holds if err is
nil and the dynamic type of r is the result type of the wrapper, and nil in
every other case (an error, a nil r, an r of another type); the error is not
part of what is returned. -/
theorem typed_future_returns_asserted_result :
    (∀ (ext : Externals) 
        (brick : bricker.Bricker (Send (Option analogin.Average)))
        (name : String) (uid : Nat) (r : device.Resulter) (err : error),
        brick.subscribeError (analogin.GetAveragingFuture.sub ext uid) name = none →
        brick.invocations (analogin.GetAveragingFuture.sub ext uid) name = [(r, err)] →
        ReturnsTypedResult device.Resulter.Average r err
          (analogin.GetAveragingFuture ext brick name uid).run)
      ∧ (∀ (ext : Externals) 
        (brick : bricker.Bricker (Send (Option analogout.Voltage)))
        (name : String) (uid : Nat) (r : device.Resulter) (err : error),
        brick.subscribeError (analogout.GetVoltageFuture.sub ext uid) name = none →
        brick.invocations (analogout.GetVoltageFuture.sub ext uid) name = [(r, err)] →
        ReturnsTypedResult device.Resulter.Voltage r err
          (analogout.GetVoltageFuture ext brick name uid).run)
      ∧ (∀ (ext : Externals) 
        (brick : bricker.Bricker (Send (Option dualrelay.State)))
        (name : String) (uid : Nat) (r : device.Resulter) (err : error),
        brick.subscribeError (dualrelay.GetStateFuture.sub ext uid) name = none →
        brick.invocations (dualrelay.GetStateFuture.sub ext uid) name = [(r, err)] →
        ReturnsTypedResult device.Resulter.State r err
          (dualrelay.GetStateFuture ext brick name uid).run)
      ∧ (∀ (ext : Externals) 
        (brick : bricker.Bricker (Send (Option dualbutton.LedState)))
        (name : String) (uid : Nat) (r : device.Resulter) (err : error),
        brick.subscribeError (dualbutton.GetLedStateFuture.sub ext uid) name = none →
        brick.invocations (dualbutton.GetLedStateFuture.sub ext uid) name = [(r, err)] →
        ReturnsTypedResult device.Resulter.LedState r err
          (dualbutton.GetLedStateFuture ext brick name uid).run)
      ∧ (∀ (ext : Externals) 
        (brick : bricker.Bricker (Send (Option io4.Interrupt)))
        (name : String) (uid : Nat) (r : device.Resulter) (err : error),
        brick.subscribeError (io4.GetInterruptFuture.sub ext uid) name = none →
        brick.invocations (io4.GetInterruptFuture.sub ext uid) name = [(r, err)] →
        ReturnsTypedResult device.Resulter.Interrupt r err
          (io4.GetInterruptFuture ext brick name uid).run)
      ∧ (∀ (ext : Externals) 
        (brick : bricker.Bricker (Send (Option lcd20x4.Pressed)))
        (name : String) (uid : Nat) (button : Option lcd20x4.Button) (r : device.Resulter) (err : error),
        brick.subscribeError (lcd20x4.IsButtonPressedFuture.sub ext uid button) name = none →
        brick.invocations (lcd20x4.IsButtonPressedFuture.sub ext uid button) name = [(r, err)] →
        ReturnsTypedResult device.Resulter.Pressed r err
          (lcd20x4.IsButtonPressedFuture ext brick name uid button).run) :=
  ⟨(fun ext brick name uid r err he hi => by
      rw [analogin.GetAveragingFuture_eq_futureBody]
      have h := futureBody_returns_sent none brick _ name _ rfl r err he hi
      unfold ReturnsTypedResult
      rw [h]
      cases err <;> cases r <;> simp [device.Resulter.assertAverage]),
    (fun ext brick name uid r err he hi => by
      rw [analogout.GetVoltageFuture_eq_futureBody]
      have h := futureBody_returns_sent none brick _ name _ rfl r err he hi
      unfold ReturnsTypedResult
      rw [h]
      cases err <;> cases r <;> simp [device.Resulter.assertVoltage]),
    (fun ext brick name uid r err he hi => by
      rw [dualrelay.GetStateFuture_eq_futureBody]
      have h := futureBody_returns_sent none brick _ name _ rfl r err he hi
      unfold ReturnsTypedResult
      rw [h]
      cases err <;> cases r <;> simp [device.Resulter.assertState]),
    (fun ext brick name uid r err he hi => by
      rw [dualbutton.GetLedStateFuture_eq_futureBody]
      have h := futureBody_returns_sent none brick _ name _ rfl r err he hi
      unfold ReturnsTypedResult
      rw [h]
      cases err <;> cases r <;> simp [device.Resulter.assertLedState]),
    (fun ext brick name uid r err he hi => by
      rw [io4.GetInterruptFuture_eq_futureBody]
      have h := futureBody_returns_sent none brick _ name _ rfl r err he hi
      unfold ReturnsTypedResult
      rw [h]
      cases err <;> cases r <;> simp [device.Resulter.assertInterrupt]),
    (fun ext brick name uid button r err he hi => by
      rw [lcd20x4.IsButtonPressedFuture_eq_futureBody]
      have h := futureBody_returns_sent none brick _ name _ rfl r err he hi
      unfold ReturnsTypedResult
      rw [h]
      cases err <;> cases r <;> simp [device.Resulter.assertPressed])⟩

/-- The theorem above for GetAveragingFuture at a connector whose receive path
answers with an Average of 50 and no error. -/
theorem typed_future_returns_asserted_result_witness :
    (analogin.GetAveragingFuture sampleExternals
        (answeringBricker (Send (Option analogin.Average))
          (device.Resulter.Average (some { Value := 50 })) none) "tcp" 7).run.result
      = some (some { Value := 50 }) :=
  (typed_future_returns_asserted_result.1 sampleExternals
      (answeringBricker (Send (Option analogin.Average))
        (device.Resulter.Average (some { Value := 50 })) none) "tcp" 7
      (device.Resulter.Average (some { Value := 50 })) none rfl rfl).1
    (some { Value := 50 }) rfl rfl

/-- C3: in each acknowledgement-only future wrapper, when Subscribe returns nil
and the handler is called once with (r, err), the wrapper returns exactly
device.IsEmptyResultOk(r, err); with IsEmptyResultOk read as "err is nil and the
result is the empty result" it returns true if and only if no error occurred and
the result is the empty result, and false whenever err is not nil. -/
theorem ack_future_returns_isEmptyResultOk :
    (∀ (ext : Externals) (brick : bricker.Bricker (Send Bool))
        (name : String) (uid : Nat) (a : Option analogin.Average) (r : device.Resulter) (err : error),
        brick.subscribeError (analogin.SetAveragingFuture.sub ext uid a) name = none →
        brick.invocations (analogin.SetAveragingFuture.sub ext uid a) name = [(r, err)] →
        ReturnsAcknowledgement ext r err (analogin.SetAveragingFuture ext brick name uid a).run)
      ∧ (∀ (ext : Externals) (brick : bricker.Bricker (Send Bool))
        (name : String) (uid : Nat) (v : Option analogout.Voltage) (r : device.Resulter) (err : error),
        brick.subscribeError (analogout.SetVoltageFuture.sub ext uid v) name = none →
        brick.invocations (analogout.SetVoltageFuture.sub ext uid v) name = [(r, err)] →
        ReturnsAcknowledgement ext r err (analogout.SetVoltageFuture ext brick name uid v).run)
      ∧ (∀ (ext : Externals) (brick : bricker.Bricker (Send Bool))
        (name : String) (uid : Nat) (s : Option dualrelay.State) (r : device.Resulter) (err : error),
        brick.subscribeError (dualrelay.SetStateFuture.sub ext uid s) name = none →
        brick.invocations (dualrelay.SetStateFuture.sub ext uid s) name = [(r, err)] →
        ReturnsAcknowledgement ext r err (dualrelay.SetStateFuture ext brick name uid s).run)
      ∧ (∀ (ext : Externals) (brick : bricker.Bricker (Send Bool))
        (name : String) (uid : Nat) (s : Option dualrelay.SelectedState) (r : device.Resulter) (err : error),
        brick.subscribeError (dualrelay.SetSelectedStateFuture.sub ext uid s) name = none →
        brick.invocations (dualrelay.SetSelectedStateFuture.sub ext uid s) name = [(r, err)] →
        ReturnsAcknowledgement ext r err (dualrelay.SetSelectedStateFuture ext brick name uid s).run)
      ∧ (∀ (ext : Externals) (brick : bricker.Bricker (Send Bool))
        (name : String) (uid : Nat) (ls : Option dualbutton.LedState) (r : device.Resulter) (err : error),
        brick.subscribeError (dualbutton.SetLedStateFuture.sub ext uid ls) name = none →
        brick.invocations (dualbutton.SetLedStateFuture.sub ext uid ls) name = [(r, err)] →
        ReturnsAcknowledgement ext r err (dualbutton.SetLedStateFuture ext brick name uid ls).run)
      ∧ (∀ (ext : Externals) (brick : bricker.Bricker (Send Bool))
        (name : String) (uid : Nat) (sls : Option dualbutton.SelectedLedState) (r : device.Resulter) (err : error),
        brick.subscribeError (dualbutton.SetSelectedLedStateFuture.sub ext uid sls) name = none →
        brick.invocations (dualbutton.SetSelectedLedStateFuture.sub ext uid sls) name = [(r, err)] →
        ReturnsAcknowledgement ext r err (dualbutton.SetSelectedLedStateFuture ext brick name uid sls).run)
      ∧ (∀ (ext : Externals) (brick : bricker.Bricker (Send Bool))
        (name : String) (uid : Nat) (i : Option io4.Interrupt) (r : device.Resulter) (err : error),
        brick.subscribeError (io4.SetInterruptFuture.sub ext uid i) name = none →
        brick.invocations (io4.SetInterruptFuture.sub ext uid i) name = [(r, err)] →
        ReturnsAcknowledgement ext r err (io4.SetInterruptFuture ext brick name uid i).run) :=
  ⟨(fun ext brick name uid a r err he hi => by
      rw [analogin.SetAveragingFuture_eq_futureBody]
      exact futureBody_acknowledges ext brick _ name rfl r err he hi),
    (fun ext brick name uid v r err he hi => by
      rw [analogout.SetVoltageFuture_eq_futureBody]
      exact futureBody_acknowledges ext brick _ name rfl r err he hi),
    (fun ext brick name uid s r err he hi => by
      rw [dualrelay.SetStateFuture_eq_futureBody]
      exact futureBody_acknowledges ext brick _ name rfl r err he hi),
    (fun ext brick name uid s r err he hi => by
      rw [dualrelay.SetSelectedStateFuture_eq_futureBody]
      exact futureBody_acknowledges ext brick _ name rfl r err he hi),
    (fun ext brick name uid ls r err he hi => by
      rw [dualbutton.SetLedStateFuture_eq_futureBody]
      exact futureBody_acknowledges ext brick _ name rfl r err he hi),
    (fun ext brick name uid sls r err he hi => by
      rw [dualbutton.SetSelectedLedStateFuture_eq_futureBody]
      exact futureBody_acknowledges ext brick _ name rfl r err he hi),
    (fun ext brick name uid i r err he hi => by
      rw [io4.SetInterruptFuture_eq_futureBody]
      exact futureBody_acknowledges ext brick _ name rfl r err he hi)⟩

/-- The theorem above for SetStateFuture at a connector whose receive path
answers with the empty result and no error: the call returns true. -/
theorem ack_future_returns_isEmptyResultOk_witness :
    (dualrelay.SetStateFuture sampleExternals
        (answeringBricker (Send Bool) (device.Resulter.EmptyResult (some {})) none) "tcp" 7
        (some { Relay1 := true, Relay2 := false })).run.result
      = some true :=
  ((ack_future_returns_isEmptyResultOk.2.2.1 sampleExternals
      (answeringBricker (Send Bool) (device.Resulter.EmptyResult (some {})) none) "tcp" 7
      (some { Relay1 := true, Relay2 := false })
      (device.Resulter.EmptyResult (some {})) none rfl rfl).2 rfl).1.2 ⟨rfl, _, rfl⟩

/-! ### Raw and semantic shapes -/

/-- C4: for every SelectedState s, converting s to the raw shape with
NewSelectedStateRaw and back with FromSelectedStateRaw (on any non-nil
receiver) yields s again; true is sent as byte 0x01 and false as 0x00. -/
theorem selectedState_raw_roundtrip (s t : dualrelay.SelectedState) :
    dualrelay.NewSelectedStateRaw (some s)
        = some { Relay := s.Relay, State := if s.State then 0x01 else 0x00 }
      ∧ dualrelay.SelectedState.FromSelectedStateRaw (some t)
          (dualrelay.NewSelectedStateRaw (some s)) = some s := by
  obtain ⟨relay, state⟩ := s
  cases state <;>
    simp [dualrelay.NewSelectedStateRaw, dualrelay.SelectedStateRaw.FromSelectedState,
      dualrelay.SelectedState.FromSelectedStateRaw]

/-- C5: given that misc.BoolToUint8 maps false and true to 0x00 and 0x01 and
misc.Uint8ToBool maps 0x00 and 0x01 to false and true, FromStateRaw applied to
NewStateRaw(s) yields s for every State s, and FromPressedRaw applied to
NewPressedRawFromPressed(p) yields p for every Pressed p; the pair State{true,
false} becomes StateRaw{0x01, 0x00} and converts back to State{true, false}. -/
theorem state_pressed_raw_roundtrip (ext : Externals)
    (hb0 : ext.BoolToUint8 false = 0x00) (hb1 : ext.BoolToUint8 true = 0x01)
    (hu0 : ext.Uint8ToBool 0x00 = false) (hu1 : ext.Uint8ToBool 0x01 = true) :
    (∀ s t : dualrelay.State,
        dualrelay.State.FromStateRaw ext (some t) (dualrelay.NewStateRaw ext (some s)) = some s)
      ∧ (∀ p t : lcd20x4.Pressed, ∃ prr,
          lcd20x4.NewPressedRawFromPressed ext (some p) = .ok prr
            ∧ lcd20x4.Pressed.FromPressedRaw ext (some t) prr = some p)
      ∧ dualrelay.NewStateRaw ext (some { Relay1 := true, Relay2 := false })
          = some { Relay1 := 0x01, Relay2 := 0x00 }
      ∧ (∀ t : dualrelay.State,
          dualrelay.State.FromStateRaw ext (some t) (some { Relay1 := 0x01, Relay2 := 0x00 })
            = some { Relay1 := true, Relay2 := false }) := by
  refine ⟨?_, ?_, ?_, ?_⟩
  · rintro ⟨r1, r2⟩ t
    cases r1 <;> cases r2 <;>
      simp [dualrelay.State.FromStateRaw, dualrelay.NewStateRaw, hb0, hb1, hu0, hu1]
  · rintro ⟨b⟩ t
    refine ⟨_, rfl, ?_⟩
    cases b <;> simp [lcd20x4.Pressed.FromPressedRaw, hb0, hb1, hu0, hu1]
  · simp [dualrelay.NewStateRaw, hb0, hb1]
  · intro t
    simp [dualrelay.State.FromStateRaw, hu0, hu1]

/-- The theorem above at the sample externals, for State{true, false} and a
receiver that held State{false, true}. -/
theorem state_pressed_raw_roundtrip_witness :
    (sampleExternals.BoolToUint8 false = 0x00 ∧ sampleExternals.BoolToUint8 true = 0x01
        ∧ sampleExternals.Uint8ToBool 0x00 = false ∧ sampleExternals.Uint8ToBool 0x01 = true)
      ∧ dualrelay.State.FromStateRaw sampleExternals (some { Relay1 := false, Relay2 := true })
          (dualrelay.NewStateRaw sampleExternals (some { Relay1 := true, Relay2 := false }))
        = some { Relay1 := true, Relay2 := false } :=
  ⟨⟨rfl, rfl, rfl, rfl⟩,
    (state_pressed_raw_roundtrip sampleExternals rfl rfl rfl rfl).1
      { Relay1 := true, Relay2 := false } { Relay1 := false, Relay2 := true }⟩

/-- C6: for every SelectedStateRaw sr whose State byte is 0x00 or 0x01, with any
Relay byte, converting to the semantic shape with FromSelectedStateRaw (on any
non-nil receiver) and back with NewSelectedStateRaw returns a raw value equal
to sr. -/
theorem selectedStateRaw_semantic_roundtrip (sr : dualrelay.SelectedStateRaw)
    (t : dualrelay.SelectedState) (hs : sr.State = 0x00 ∨ sr.State = 0x01) :
    dualrelay.NewSelectedStateRaw
        (dualrelay.SelectedState.FromSelectedStateRaw (some t) (some sr)) = some sr := by
  obtain ⟨relay, state⟩ := sr
  rcases hs with h | h <;> simp only at h <;> subst h <;>
    simp [dualrelay.NewSelectedStateRaw, dualrelay.SelectedStateRaw.FromSelectedState,
      dualrelay.SelectedState.FromSelectedStateRaw]

/-- The theorem above for the raw value with Relay 2 and State 0x01. -/
theorem selectedStateRaw_semantic_roundtrip_witness :
    ((1 : Nat) = 0x00 ∨ (1 : Nat) = 0x01)
      ∧ dualrelay.NewSelectedStateRaw
          (dualrelay.SelectedState.FromSelectedStateRaw (some { Relay := 0, State := false })
            (some { Relay := 2, State := 1 })) = some { Relay := 2, State := 1 } :=
  ⟨Or.inr rfl,
    selectedStateRaw_semantic_roundtrip { Relay := 2, State := 1 } { Relay := 0, State := false }
      (Or.inr rfl)⟩

/-- C7: for every byte b in SelectedStateRaw.State and every non-nil receiver,
FromSelectedStateRaw decodes as a function of b alone: State is true exactly
when the least significant bit of b is 1, so 0x02 gives false and 0xFF gives
true; no byte is rejected, and Relay is copied as it is. -/
theorem fromSelectedStateRaw_low_bit (t : dualrelay.SelectedState) (relay b : Nat) :
    dualrelay.SelectedState.FromSelectedStateRaw (some t) (some { Relay := relay, State := b })
        = some { Relay := relay, State := decide (b % 2 = 1) }
      ∧ dualrelay.SelectedState.FromSelectedStateRaw (some t)
          (some { Relay := relay, State := 0x02 }) = some { Relay := relay, State := false }
      ∧ dualrelay.SelectedState.FromSelectedStateRaw (some t)
          (some { Relay := relay, State := 0xFF }) = some { Relay := relay, State := true } := by
  refine ⟨?_, ?_, ?_⟩
  · simp only [dualrelay.SelectedState.FromSelectedStateRaw, Nat.and_one_is_mod]
    by_cases h : b % 2 = 1 <;> simp [h]
  · simp [dualrelay.SelectedState.FromSelectedStateRaw]
  · simp [dualrelay.SelectedState.FromSelectedStateRaw]

/-! ### The future channel -/

/-- C8: in each of the thirteen future wrappers the future channel is closed
exactly once on every exit path: after a successful Subscribe the trace of the
call is make, one receive, close, and after a failed Subscribe it is make,
close with no receive; no returning run closes twice or leaves the channel
open. -/
theorem future_channel_closed_once :
    (∀ (ext : Externals) (brick : bricker.Bricker (Send Bool))
        (name : String) (uid : Nat) (a : Option analogin.Average),
        ClosesOnceOnExit (brick.subscribeError (analogin.SetAveragingFuture.sub ext uid a) name)
          (brick.invocations (analogin.SetAveragingFuture.sub ext uid a) name).length
          (analogin.SetAveragingFuture ext brick name uid a).run)
      ∧ (∀ (ext : Externals) 
        (brick : bricker.Bricker (Send (Option analogin.Average)))
        (name : String) (uid : Nat),
        ClosesOnceOnExit (brick.subscribeError (analogin.GetAveragingFuture.sub ext uid) name)
          (brick.invocations (analogin.GetAveragingFuture.sub ext uid) name).length
          (analogin.GetAveragingFuture ext brick name uid).run)
      ∧ (∀ (ext : Externals) (brick : bricker.Bricker (Send Bool))
        (name : String) (uid : Nat) (v : Option analogout.Voltage),
        ClosesOnceOnExit (brick.subscribeError (analogout.SetVoltageFuture.sub ext uid v) name)
          (brick.invocations (analogout.SetVoltageFuture.sub ext uid v) name).length
          (analogout.SetVoltageFuture ext brick name uid v).run)
      ∧ (∀ (ext : Externals) 
        (brick : bricker.Bricker (Send (Option analogout.Voltage)))
        (name : String) (uid : Nat),
        ClosesOnceOnExit (brick.subscribeError (analogout.GetVoltageFuture.sub ext uid) name)
          (brick.invocations (analogout.GetVoltageFuture.sub ext uid) name).length
          (analogout.GetVoltageFuture ext brick name uid).run)
      ∧ (∀ (ext : Externals) (brick : bricker.Bricker (Send Bool))
        (name : String) (uid : Nat) (s : Option dualrelay.State),
        ClosesOnceOnExit (brick.subscribeError (dualrelay.SetStateFuture.sub ext uid s) name)
          (brick.invocations (dualrelay.SetStateFuture.sub ext uid s) name).length
          (dualrelay.SetStateFuture ext brick name uid s).run)
      ∧ (∀ (ext : Externals) 
        (brick : bricker.Bricker (Send (Option dualrelay.State)))
        (name : String) (uid : Nat),
        ClosesOnceOnExit (brick.subscribeError (dualrelay.GetStateFuture.sub ext uid) name)
          (brick.invocations (dualrelay.GetStateFuture.sub ext uid) name).length
          (dualrelay.GetStateFuture ext brick name uid).run)
      ∧ (∀ (ext : Externals) (brick : bricker.Bricker (Send Bool))
        (name : String) (uid : Nat) (s : Option dualrelay.SelectedState),
        ClosesOnceOnExit (brick.subscribeError (dualrelay.SetSelectedStateFuture.sub ext uid s) name)
          (brick.invocations (dualrelay.SetSelectedStateFuture.sub ext uid s) name).length
          (dualrelay.SetSelectedStateFuture ext brick name uid s).run)
      ∧ (∀ (ext : Externals) (brick : bricker.Bricker (Send Bool))
        (name : String) (uid : Nat) (ls : Option dualbutton.LedState),
        ClosesOnceOnExit (brick.subscribeError (dualbutton.SetLedStateFuture.sub ext uid ls) name)
          (brick.invocations (dualbutton.SetLedStateFuture.sub ext uid ls) name).length
          (dualbutton.SetLedStateFuture ext brick name uid ls).run)
      ∧ (∀ (ext : Externals) 
        (brick : bricker.Bricker (Send (Option dualbutton.LedState)))
        (name : String) (uid : Nat),
        ClosesOnceOnExit (brick.subscribeError (dualbutton.GetLedStateFuture.sub ext uid) name)
          (brick.invocations (dualbutton.GetLedStateFuture.sub ext uid) name).length
          (dualbutton.GetLedStateFuture ext brick name uid).run)
      ∧ (∀ (ext : Externals) (brick : bricker.Bricker (Send Bool))
        (name : String) (uid : Nat) (sls : Option dualbutton.SelectedLedState),
        ClosesOnceOnExit (brick.subscribeError (dualbutton.SetSelectedLedStateFuture.sub ext uid sls) name)
          (brick.invocations (dualbutton.SetSelectedLedStateFuture.sub ext uid sls) name).length
          (dualbutton.SetSelectedLedStateFuture ext brick name uid sls).run)
      ∧ (∀ (ext : Externals) (brick : bricker.Bricker (Send Bool))
        (name : String) (uid : Nat) (i : Option io4.Interrupt),
        ClosesOnceOnExit (brick.subscribeError (io4.SetInterruptFuture.sub ext uid i) name)
          (brick.invocations (io4.SetInterruptFuture.sub ext uid i) name).length
          (io4.SetInterruptFuture ext brick name uid i).run)
      ∧ (∀ (ext : Externals) 
        (brick : bricker.Bricker (Send (Option io4.Interrupt)))
        (name : String) (uid : Nat),
        ClosesOnceOnExit (brick.subscribeError (io4.GetInterruptFuture.sub ext uid) name)
          (brick.invocations (io4.GetInterruptFuture.sub ext uid) name).length
          (io4.GetInterruptFuture ext brick name uid).run)
      ∧ (∀ (ext : Externals) 
        (brick : bricker.Bricker (Send (Option lcd20x4.Pressed)))
        (name : String) (uid : Nat) (button : Option lcd20x4.Button),
        ClosesOnceOnExit (brick.subscribeError (lcd20x4.IsButtonPressedFuture.sub ext uid button) name)
          (brick.invocations (lcd20x4.IsButtonPressedFuture.sub ext uid button) name).length
          (lcd20x4.IsButtonPressedFuture ext brick name uid button).run) :=
  ⟨(fun ext brick name uid a => by
      rw [analogin.SetAveragingFuture_eq_futureBody]
      exact futureBody_closes_once false brick _ name _ rfl),
    (fun ext brick name uid => by
      rw [analogin.GetAveragingFuture_eq_futureBody]
      exact futureBody_closes_once none brick _ name _ rfl),
    (fun ext brick name uid v => by
      rw [analogout.SetVoltageFuture_eq_futureBody]
      exact futureBody_closes_once false brick _ name _ rfl),
    (fun ext brick name uid => by
      rw [analogout.GetVoltageFuture_eq_futureBody]
      exact futureBody_closes_once none brick _ name _ rfl),
    (fun ext brick name uid s => by
      rw [dualrelay.SetStateFuture_eq_futureBody]
      exact futureBody_closes_once false brick _ name _ rfl),
    (fun ext brick name uid => by
      rw [dualrelay.GetStateFuture_eq_futureBody]
      exact futureBody_closes_once none brick _ name _ rfl),
    (fun ext brick name uid s => by
      rw [dualrelay.SetSelectedStateFuture_eq_futureBody]
      exact futureBody_closes_once false brick _ name _ rfl),
    (fun ext brick name uid ls => by
      rw [dualbutton.SetLedStateFuture_eq_futureBody]
      exact futureBody_closes_once false brick _ name _ rfl),
    (fun ext brick name uid => by
      rw [dualbutton.GetLedStateFuture_eq_futureBody]
      exact futureBody_closes_once none brick _ name _ rfl),
    (fun ext brick name uid sls => by
      rw [dualbutton.SetSelectedLedStateFuture_eq_futureBody]
      exact futureBody_closes_once false brick _ name _ rfl),
    (fun ext brick name uid i => by
      rw [io4.SetInterruptFuture_eq_futureBody]
      exact futureBody_closes_once false brick _ name _ rfl),
    (fun ext brick name uid => by
      rw [io4.GetInterruptFuture_eq_futureBody]
      exact futureBody_closes_once none brick _ name _ rfl),
    (fun ext brick name uid button => by
      rw [lcd20x4.IsButtonPressedFuture_eq_futureBody]
      exact futureBody_closes_once none brick _ name _ rfl)⟩

/-- The theorem above on both exit paths: GetVoltageFuture at a connector that
knows no transport, and SetAveragingFuture at one that answers. -/
theorem future_channel_closed_once_witness :
    ClosesOnceOnExit (some "connector name does not exist") 0
        (analogout.GetVoltageFuture sampleExternals
          (refusingBricker (Send (Option analogout.Voltage))) "tcp" 7).run
      ∧ ClosesOnceOnExit none 1
          (analogin.SetAveragingFuture sampleExternals
            (answeringBricker (Send Bool) (device.Resulter.EmptyResult (some {})) none) "tcp" 7
            (some { Value := 50 })).run :=
  ⟨future_channel_closed_once.2.2.2.1 sampleExternals
      (refusingBricker (Send (Option analogout.Voltage))) "tcp" 7,
    future_channel_closed_once.1 sampleExternals
      (answeringBricker (Send Bool) (device.Resulter.EmptyResult (some {})) none) "tcp" 7
      (some { Value := 50 })⟩

/-! ### Builders and Copy -/

/-- C9: for all ids, uids and handlers, each event-listener builder
(ButtonPressed, ButtonReleased, StateChanged, InterruptTrigger) builds a
persistent (callback) subscription without outgoing packet, and each request
builder (the Set and Get builders and IsButtonPressed) builds a one-shot
subscription that carries an outgoing packet. -/
theorem builders_mode_and_packet {ε : Type} (ext : Externals) (id : String) (uid : Nat)
    (handler : device.Handler ε) :
    (lcd20x4.ButtonPressed ext id uid handler).IsListener
      ∧ (lcd20x4.ButtonReleased ext id uid handler).IsListener
      ∧ (dualbutton.StateChanged ext id uid handler).IsListener
      ∧ (io4.InterruptTrigger ext id uid handler).IsListener
      ∧ (∀ a : Option analogin.Average,
          (analogin.SetAveraging ext id uid a handler).IsRequest)
      ∧ (analogin.GetAveraging ext id uid handler).IsRequest
      ∧ (∀ v : Option analogout.Voltage,
          (analogout.SetVoltage ext id uid v handler).IsRequest)
      ∧ (analogout.GetVoltage ext id uid handler).IsRequest
      ∧ (∀ s : Option dualrelay.State,
          (dualrelay.SetState ext id uid s handler).IsRequest)
      ∧ (dualrelay.GetState ext id uid handler).IsRequest
      ∧ (∀ s : Option dualrelay.SelectedState,
          (dualrelay.SetSelectedState ext id uid s handler).IsRequest)
      ∧ (∀ ls : Option dualbutton.LedState,
          (dualbutton.SetLedState ext id uid ls handler).IsRequest)
      ∧ (dualbutton.GetLedState ext id uid handler).IsRequest
      ∧ (∀ sls : Option dualbutton.SelectedLedState,
          (dualbutton.SetSelectedLedState ext id uid sls handler).IsRequest)
      ∧ (∀ i : Option io4.Interrupt,
          (io4.SetInterrupt ext id uid i handler).IsRequest)
      ∧ (io4.GetInterrupt ext id uid handler).IsRequest
      ∧ (∀ button : Option lcd20x4.Button,
          (lcd20x4.IsButtonPressed ext id uid button handler).IsRequest) :=
  ⟨⟨_, rfl, rfl, rfl⟩,
    ⟨_, rfl, rfl, rfl⟩,
    ⟨_, rfl, rfl, rfl⟩,
    ⟨_, rfl, rfl, rfl⟩,
    (fun _ => ⟨_, _, rfl, rfl, rfl⟩),
    ⟨_, _, rfl, rfl, rfl⟩,
    (fun _ => ⟨_, _, rfl, rfl, rfl⟩),
    ⟨_, _, rfl, rfl, rfl⟩,
    (fun _ => ⟨_, _, rfl, rfl, rfl⟩),
    ⟨_, _, rfl, rfl, rfl⟩,
    (fun _ => ⟨_, _, rfl, rfl, rfl⟩),
    (fun _ => ⟨_, _, rfl, rfl, rfl⟩),
    ⟨_, _, rfl, rfl, rfl⟩,
    (fun _ => ⟨_, _, rfl, rfl, rfl⟩),
    (fun _ => ⟨_, _, rfl, rfl, rfl⟩),
    ⟨_, _, rfl, rfl, rfl⟩,
    (fun _ => ⟨_, _, rfl, rfl, rfl⟩)⟩

/-- C10: for Average, Voltage, State, SelectedState, Button and Pressed, Copy on
a nil receiver returns the nil Resulter, and Copy on a non-nil receiver x
returns a non-nil pointer of the same type to a value whose fields all equal
those of x, and leaves x as it was. -/
theorem copy_nil_and_fields :
    analogin.Average.Copy none = (none, device.Resulter.nil)
      ∧ (∀ x : analogin.Average,
          analogin.Average.Copy (some x) = (some x, device.Resulter.Average (some x)))
      ∧ analogout.Voltage.Copy none = (none, device.Resulter.nil)
      ∧ (∀ x : analogout.Voltage,
          analogout.Voltage.Copy (some x) = (some x, device.Resulter.Voltage (some x)))
      ∧ dualrelay.State.Copy none = (none, device.Resulter.nil)
      ∧ (∀ x : dualrelay.State,
          dualrelay.State.Copy (some x) = (some x, device.Resulter.State (some x)))
      ∧ dualrelay.SelectedState.Copy none = (none, device.Resulter.nil)
      ∧ (∀ x : dualrelay.SelectedState,
          dualrelay.SelectedState.Copy (some x) = (some x, device.Resulter.SelectedState (some x)))
      ∧ lcd20x4.Button.Copy none = (none, device.Resulter.nil)
      ∧ (∀ x : lcd20x4.Button,
          lcd20x4.Button.Copy (some x) = (some x, device.Resulter.Button (some x)))
      ∧ lcd20x4.Pressed.Copy none = (none, device.Resulter.nil)
      ∧ (∀ x : lcd20x4.Pressed,
          lcd20x4.Pressed.Copy (some x) = (some x, device.Resulter.Pressed (some x))) :=
  ⟨rfl,
    (fun _ => rfl),
    rfl,
    (fun _ => rfl),
    rfl,
    (fun _ => rfl),
    rfl,
    (fun _ => rfl),
    rfl,
    (fun _ => rfl),
    rfl,
    (fun _ => rfl)⟩

/-! ### IsButtonPressedFutureSimple -/

theorem lcd20x4.IsButtonPressedFutureSimple_run (ext : Externals)
    (brick : bricker.Bricker (Send (Option lcd20x4.Pressed))) (name : String) (uid : Nat)
    (button : Option lcd20x4.Button) :
    (lcd20x4.IsButtonPressedFutureSimple ext brick name uid button).run
      = match (lcd20x4.IsButtonPressedFuture ext brick name uid button).run with
        | .returned none ch => .returned false ch
        | .returned (some v) ch => .returned v.IsPressed ch
        | .blocked ch => .blocked ch := by
  simp only [lcd20x4.IsButtonPressedFutureSimple, Go.run, bind]
  cases lcd20x4.IsButtonPressedFuture ext brick name uid button {} with
  | blocked ch => rfl
  | returned p ch => cases p <;> rfl

/-- C11: IsButtonPressedFutureSimple returns false whenever IsButtonPressedFuture
returns nil, and otherwise returns exactly the IsPressed field of the returned
Pressed; so it returns true if and only if the future call yielded a non-nil
Pressed with IsPressed true. It returns whenever the future call returns. -/
theorem isButtonPressedFutureSimple_result (ext : Externals)
    (brick : bricker.Bricker (Send (Option lcd20x4.Pressed))) (name : String) (uid : Nat)
    (button : Option lcd20x4.Button) :
    ((lcd20x4.IsButtonPressedFuture ext brick name uid button).run.result = some none →
        (lcd20x4.IsButtonPressedFutureSimple ext brick name uid button).run.result = some false)
      ∧ (∀ p : lcd20x4.Pressed,
          (lcd20x4.IsButtonPressedFuture ext brick name uid button).run.result = some (some p) →
          (lcd20x4.IsButtonPressedFutureSimple ext brick name uid button).run.result
            = some p.IsPressed)
      ∧ ((lcd20x4.IsButtonPressedFutureSimple ext brick name uid button).run.result = some true
          ↔ ∃ p : lcd20x4.Pressed,
              (lcd20x4.IsButtonPressedFuture ext brick name uid button).run.result
                = some (some p) ∧ p.IsPressed = true)
      ∧ ((lcd20x4.IsButtonPressedFutureSimple ext brick name uid button).run.result = none
          ↔ (lcd20x4.IsButtonPressedFuture ext brick name uid button).run.result = none) := by
  rw [lcd20x4.IsButtonPressedFutureSimple_run]
  cases (lcd20x4.IsButtonPressedFuture ext brick name uid button).run with
  | blocked ch => simp [Outcome.result]
  | returned p ch =>
      cases p with
      | none => simp [Outcome.result]
      | some v =>
          obtain ⟨b⟩ := v
          simp [Outcome.result]

/-- The theorem above at a connector whose receive path answers with a Pressed
that has IsPressed true. -/
theorem isButtonPressedFutureSimple_result_witness :
    (lcd20x4.IsButtonPressedFuture sampleExternals
        (answeringBricker (Send (Option lcd20x4.Pressed))
          (device.Resulter.Pressed (some { IsPressed := true })) none) "tcp" 7
        (some { Number := 2 })).run.result = some (some { IsPressed := true })
      ∧ (lcd20x4.IsButtonPressedFutureSimple sampleExternals
          (answeringBricker (Send (Option lcd20x4.Pressed))
            (device.Resulter.Pressed (some { IsPressed := true })) none) "tcp" 7
          (some { Number := 2 })).run.result = some true :=
  ⟨rfl,
    (isButtonPressedFutureSimple_result sampleExternals
      (answeringBricker (Send (Option lcd20x4.Pressed))
        (device.Resulter.Pressed (some { IsPressed := true })) none) "tcp" 7
      (some { Number := 2 })).2.1 { IsPressed := true } rfl⟩

/-! ### FromPacket -/

/-- C12: for State, SelectedState and Pressed, FromPacket is atomic on failure.
When CheckForFromPacket returns an error, FromPacket returns that same error
with the receiver as it was, whatever Decode would do (also for a nil packet, so
Decode is not attempted). Whenever FromPacket returns a non-nil error, from the
check or from Decode of the raw shape, the receiver is exactly what it was before
the call; when it returns nil, the packet was decoded into the raw struct
without error and the receiver is the raw-to-semantic conversion of that raw
struct. For a non-nil packet FromPacket always returns. CheckForFromPacket is
taken not to write to the receiver. -/
theorem fromPacket_atomic_on_failure (ext : Externals) (dec : Decoding)
    (p : Option packet.Packet) :
    (∀ (s : Option dualrelay.State) (e : String),
        dec.CheckForFromPacket (.State s) p = some e →
        dualrelay.State.FromPacket ext dec s p = .ok (s, some e))
      ∧ (∀ (s s' : Option dualrelay.State) (err : error),
          dualrelay.State.FromPacket ext dec s p = .ok (s', err) →
          (err ≠ none → s' = s)
            ∧ (err = none → ∃ pk raw, p = some pk
                ∧ dec.DecodeStateRaw pk { Relay1 := 0, Relay2 := 0 } = (raw, none)
                ∧ s' = dualrelay.State.FromStateRaw ext s (some raw)))
      ∧ (∀ (s : Option dualrelay.SelectedState) (e : String),
          dec.CheckForFromPacket (.SelectedState s) p = some e →
          dualrelay.SelectedState.FromPacket dec s p = .ok (s, some e))
      ∧ (∀ (s s' : Option dualrelay.SelectedState) (err : error),
          dualrelay.SelectedState.FromPacket dec s p = .ok (s', err) →
          (err ≠ none → s' = s)
            ∧ (err = none → ∃ pk raw, p = some pk
                ∧ dec.DecodeSelectedStateRaw pk { Relay := 0, State := 0 } = (raw, none)
                ∧ s' = dualrelay.SelectedState.FromSelectedStateRaw s (some raw)))
      ∧ (∀ (pr : Option lcd20x4.Pressed) (e : String),
          dec.CheckForFromPacket (.Pressed pr) p = some e →
          lcd20x4.Pressed.FromPacket ext dec pr p = .ok (pr, some e))
      ∧ (∀ (pr pr' : Option lcd20x4.Pressed) (err : error),
          lcd20x4.Pressed.FromPacket ext dec pr p = .ok (pr', err) →
          (err ≠ none → pr' = pr)
            ∧ (err = none → ∃ pk raw, p = some pk
                ∧ dec.DecodePressedRaw pk { IsPressed := 0 } = (raw, none)
                ∧ pr' = lcd20x4.Pressed.FromPressedRaw ext pr (some raw)))
      ∧ (p ≠ none →
          (∀ s : Option dualrelay.State, ∃ s' err,
              dualrelay.State.FromPacket ext dec s p = .ok (s', err))
            ∧ (∀ s : Option dualrelay.SelectedState, ∃ s' err,
                dualrelay.SelectedState.FromPacket dec s p = .ok (s', err))
            ∧ (∀ pr : Option lcd20x4.Pressed, ∃ pr' err,
                lcd20x4.Pressed.FromPacket ext dec pr p = .ok (pr', err))) := by
  refine ⟨?_, ?_, ?_, ?_, ?_, ?_, ?_⟩
  · intro s e hc
    simp [dualrelay.State.FromPacket, hc]
  · intro s s' err h
    unfold dualrelay.State.FromPacket at h
    cases hc : dec.CheckForFromPacket (.State s) p with
    | some e =>
        simp only [hc, Except.ok.injEq, Prod.mk.injEq] at h
        obtain ⟨h1, h2⟩ := h
        subst h1 h2
        simp
    | none =>
        cases p with
        | none => simp [hc] at h
        | some pk =>
            rcases hd : dec.DecodeStateRaw pk { Relay1 := 0, Relay2 := 0 } with ⟨raw, derr⟩
            cases derr with
            | none =>
                simp only [hc, hd] at h
                simp at h
                obtain ⟨h1, h2⟩ := h
                subst h1 h2
                exact ⟨fun hne => absurd rfl hne, fun _ => ⟨pk, raw, rfl, hd, rfl⟩⟩
            | some e =>
                simp only [hc, hd] at h
                simp at h
                obtain ⟨h1, h2⟩ := h
                subst h1 h2
                simp
  · intro s e hc
    simp [dualrelay.SelectedState.FromPacket, hc]
  · intro s s' err h
    unfold dualrelay.SelectedState.FromPacket at h
    cases hc : dec.CheckForFromPacket (.SelectedState s) p with
    | some e =>
        simp only [hc, Except.ok.injEq, Prod.mk.injEq] at h
        obtain ⟨h1, h2⟩ := h
        subst h1 h2
        simp
    | none =>
        cases p with
        | none => simp [hc] at h
        | some pk =>
            rcases hd : dec.DecodeSelectedStateRaw pk { Relay := 0, State := 0 } with ⟨raw, derr⟩
            cases derr with
            | none =>
                simp only [hc, hd] at h
                simp at h
                obtain ⟨h1, h2⟩ := h
                subst h1 h2
                exact ⟨fun hne => absurd rfl hne, fun _ => ⟨pk, raw, rfl, hd, rfl⟩⟩
            | some e =>
                simp only [hc, hd] at h
                simp at h
                obtain ⟨h1, h2⟩ := h
                subst h1 h2
                simp
  · intro pr e hc
    simp [lcd20x4.Pressed.FromPacket, hc]
  · intro pr pr' err h
    unfold lcd20x4.Pressed.FromPacket at h
    cases hc : dec.CheckForFromPacket (.Pressed pr) p with
    | some e =>
        simp only [hc, Except.ok.injEq, Prod.mk.injEq] at h
        obtain ⟨h1, h2⟩ := h
        subst h1 h2
        simp
    | none =>
        cases p with
        | none => simp [hc] at h
        | some pk =>
            rcases hd : dec.DecodePressedRaw pk { IsPressed := 0 } with ⟨raw, derr⟩
            cases derr with
            | none =>
                simp only [hc, hd] at h
                simp at h
                obtain ⟨h1, h2⟩ := h
                subst h1 h2
                exact ⟨fun hne => absurd rfl hne, fun _ => ⟨pk, raw, rfl, hd, rfl⟩⟩
            | some e =>
                simp only [hc, hd] at h
                simp at h
                obtain ⟨h1, h2⟩ := h
                subst h1 h2
                simp
  · intro hp
    obtain ⟨pk, rfl⟩ := Option.ne_none_iff_exists'.mp hp
    refine ⟨fun s => ?_, fun s => ?_, fun pr => ?_⟩
    · unfold dualrelay.State.FromPacket
      cases dec.CheckForFromPacket (.State s) (some pk) with
      | some e => exact ⟨_, _, rfl⟩
      | none =>
          rcases hd : dec.DecodeStateRaw pk { Relay1 := 0, Relay2 := 0 } with ⟨raw, derr⟩
          cases derr <;> simp [hd]
    · unfold dualrelay.SelectedState.FromPacket
      cases dec.CheckForFromPacket (.SelectedState s) (some pk) with
      | some e => exact ⟨_, _, rfl⟩
      | none =>
          rcases hd : dec.DecodeSelectedStateRaw pk { Relay := 0, State := 0 } with ⟨raw, derr⟩
          cases derr <;> simp [hd]
    · unfold lcd20x4.Pressed.FromPacket
      cases dec.CheckForFromPacket (.Pressed pr) (some pk) with
      | some e => exact ⟨_, _, rfl⟩
      | none =>
          rcases hd : dec.DecodePressedRaw pk { IsPressed := 0 } with ⟨raw, derr⟩
          cases derr <;> simp [hd]

/-- The theorem above for a State receiver on both paths: a packet whose decode
fails after writing to the raw struct leaves the receiver as it was, and a
packet that decodes to StateRaw{0x01, 0x00} turns the receiver into
State{true, false}. -/
theorem fromPacket_atomic_on_failure_witness :
    (dualrelay.State.FromPacket sampleExternals sampleDecoding
          (some { Relay1 := true, Relay2 := true })
          (some { Uid := 7, Fid := 2, ResponseExpected := false, Payload := .nil })
        = .ok (some { Relay1 := true, Relay2 := true }, some "payload has the wrong length"))
      ∧ (dualrelay.State.FromPacket sampleExternals sampleDecoding
            (some { Relay1 := false, Relay2 := true })
            (some { Uid := 7, Fid := 2, ResponseExpected := false,
                    Payload := .StateRaw (some { Relay1 := 0x01, Relay2 := 0x00 }) })
          = .ok (some { Relay1 := true, Relay2 := false }, none))
      ∧ (∃ pk raw,
          (some { Uid := 7, Fid := 2, ResponseExpected := false,
                  Payload := .StateRaw (some { Relay1 := 0x01, Relay2 := 0x00 }) }
              : Option packet.Packet) = some pk
            ∧ sampleDecoding.DecodeStateRaw pk { Relay1 := 0, Relay2 := 0 } = (raw, none)
            ∧ (some { Relay1 := true, Relay2 := false } : Option dualrelay.State)
                = dualrelay.State.FromStateRaw sampleExternals
                    (some { Relay1 := false, Relay2 := true }) (some raw)) :=
  ⟨rfl, rfl,
    ((fromPacket_atomic_on_failure sampleExternals sampleDecoding
        (some { Uid := 7, Fid := 2, ResponseExpected := false,
                Payload := .StateRaw (some { Relay1 := 0x01, Relay2 := 0x00 }) })).2.1
      (some { Relay1 := false, Relay2 := true }) (some { Relay1 := true, Relay2 := false })
      none rfl).2 rfl⟩

/-! ### Semantic-to-raw constructors at nil -/

/-- C13: NewStateRaw(nil) and NewSelectedStateRaw(nil) return nil, and
NewPressedRawFromPressed returns for every non-nil argument; at a nil argument
NewPressedRawFromPressed reads pr.IsPressed and panics with a nil pointer
dereference instead of returning. -/
theorem newPressedRawFromPressed_nil_panics (ext : Externals) :
    dualrelay.NewStateRaw ext none = none
      ∧ dualrelay.NewSelectedStateRaw none = none
      ∧ (∀ pr : lcd20x4.Pressed,
          lcd20x4.NewPressedRawFromPressed ext (some pr)
            = .ok (some { IsPressed := ext.BoolToUint8 pr.IsPressed }))
      ∧ lcd20x4.NewPressedRawFromPressed ext none = .error Panic.nilDereference :=
  ⟨rfl, rfl, fun _ => rfl, rfl⟩

/-! ### Outgoing data of SetVoltage -/

/-- Counterexample to the range of the outgoing Voltage: the uint16 value 5001
is handed to SetVoltage and the Voltage in the outgoing data of the descriptor
has Value 5001, which is not in the range 0 to 5000. -/
theorem setVoltage_out_of_range_counterexample :
    (5001 : Nat) < 2 ^ 16
      ∧ ∃ w : analogout.Voltage,
          (analogout.SetVoltage sampleExternals "" 7 (some { Value := 5001 })
              (none : device.Handler Unit)).outgoingData
            = some (packet.Payload.Voltage (some w))
          ∧ ¬ w.Value ≤ 5000 :=
  ⟨by decide, { Value := 5001 }, rfl, by decide⟩

/-- C14, amended: SetVoltage places the Voltage pointer of the caller into the
outgoing data of the descriptor unchanged and without a range check, for every
id, uid, handler and every Voltage; the Value sent is the Value passed, so it
is in the range 0 to 5000 exactly when the value of the caller is. -/
theorem setVoltage_places_voltage_unchanged {ε : Type} (ext : Externals) (id : String)
    (uid : Nat) (v : Option analogout.Voltage) (handler : device.Handler ε) :
    (analogout.SetVoltage ext id uid v handler).outgoingData
        = some (packet.Payload.Voltage v)
      ∧ ∀ w w' : analogout.Voltage, v = some w →
          (analogout.SetVoltage ext id uid v handler).outgoingData
            = some (packet.Payload.Voltage (some w')) →
          w'.Value = w.Value ∧ (w'.Value ≤ 5000 ↔ w.Value ≤ 5000) := by
  have h : (analogout.SetVoltage ext id uid v handler).outgoingData
      = some (packet.Payload.Voltage v) := rfl
  refine ⟨h, fun w w' hv hw => ?_⟩
  rw [h, hv] at hw
  simp only [Option.some.injEq, packet.Payload.Voltage.injEq] at hw
  subst hw
  exact ⟨rfl, Iff.rfl⟩

/-- The theorem above for a Voltage of 3300 mV. -/
theorem setVoltage_places_voltage_unchanged_witness :
    (analogout.SetVoltage sampleExternals "" 7 (some { Value := 3300 })
        (none : device.Handler Unit)).outgoingData
      = some (packet.Payload.Voltage (some { Value := 3300 }))
      ∧ ((3300 : Nat) = 3300 ∧ ((3300 : Nat) ≤ 5000 ↔ (3300 : Nat) ≤ 5000)) :=
  ⟨rfl,
    (setVoltage_places_voltage_unchanged sampleExternals "" 7 (some { Value := 3300 })
        (none : device.Handler Unit)).2
      { Value := 3300 } { Value := 3300 } rfl rfl⟩

/-! ### Fallback labels -/

/-- C15: every builder but one hands its own function name to
device.FallbackId as the fallback label, for all ids, uids and handlers.
dualbutton.StateChanged hands over "InterruptTrigger", the label of
io4.InterruptTrigger, and not "StateChanged": with an empty id and a FallbackId
that falls back to the label, its descriptor is named "InterruptTrigger". -/
theorem stateChanged_fallback_label {ε : Type} (ext : Externals) (id : String) (uid : Nat)
    (handler : device.Handler ε) :
    (dualbutton.StateChanged ext id uid handler).Name = ext.FallbackId id "InterruptTrigger"
      ∧ (dualbutton.StateChanged sampleExternals "" uid handler).Name = "InterruptTrigger"
      ∧ (dualbutton.StateChanged sampleExternals "" uid handler).Name ≠ "StateChanged"
      ∧ (∀ a : Option analogin.Average,
          (analogin.SetAveraging ext id uid a handler).Name = ext.FallbackId id "SetAveraging")
      ∧ (analogin.GetAveraging ext id uid handler).Name = ext.FallbackId id "GetAveraging"
      ∧ (∀ v : Option analogout.Voltage,
          (analogout.SetVoltage ext id uid v handler).Name = ext.FallbackId id "SetVoltage")
      ∧ (analogout.GetVoltage ext id uid handler).Name = ext.FallbackId id "GetVoltage"
      ∧ (∀ s : Option dualrelay.State,
          (dualrelay.SetState ext id uid s handler).Name = ext.FallbackId id "SetState")
      ∧ (dualrelay.GetState ext id uid handler).Name = ext.FallbackId id "GetState"
      ∧ (∀ s : Option dualrelay.SelectedState,
          (dualrelay.SetSelectedState ext id uid s handler).Name = ext.FallbackId id "SetSelectedState")
      ∧ (∀ ls : Option dualbutton.LedState,
          (dualbutton.SetLedState ext id uid ls handler).Name = ext.FallbackId id "SetLedState")
      ∧ (dualbutton.GetLedState ext id uid handler).Name = ext.FallbackId id "GetLedState"
      ∧ (∀ sls : Option dualbutton.SelectedLedState,
          (dualbutton.SetSelectedLedState ext id uid sls handler).Name = ext.FallbackId id "SetSelectedLedState")
      ∧ (∀ i : Option io4.Interrupt,
          (io4.SetInterrupt ext id uid i handler).Name = ext.FallbackId id "SetInterrupt")
      ∧ (io4.GetInterrupt ext id uid handler).Name = ext.FallbackId id "GetInterrupt"
      ∧ (io4.InterruptTrigger ext id uid handler).Name = ext.FallbackId id "InterruptTrigger"
      ∧ (∀ button : Option lcd20x4.Button,
          (lcd20x4.IsButtonPressed ext id uid button handler).Name = ext.FallbackId id "IsButtonPressed")
      ∧ (lcd20x4.ButtonPressed ext id uid handler).Name = ext.FallbackId id "ButtonPressed"
      ∧ (lcd20x4.ButtonReleased ext id uid handler).Name = ext.FallbackId id "ButtonReleased" :=
  ⟨rfl, rfl,
    fun h => absurd (show "InterruptTrigger" = "StateChanged" from h) (by decide),
    (fun _ => rfl),
    rfl,
    (fun _ => rfl),
    rfl,
    (fun _ => rfl),
    rfl,
    (fun _ => rfl),
    (fun _ => rfl),
    rfl,
    (fun _ => rfl),
    (fun _ => rfl),
    rfl,
    rfl,
    (fun _ => rfl),
    rfl,
    rfl⟩

end Bricker
